import Mathlib

/-!
# Verification of the CarbonOcean normalization engine (`data_processor.py`)

A shallow embedding of the schema-inference and normalization engine of
`DataProcessor`: spreadsheet tables are lists of rows of typed cells, the
classification / transformation / mapping / cleaning / validation stages are
executable Lean functions mirroring the Python source, and the behavioural
claims of the specification are proved as theorems about these functions.

Numeric cell values are modelled as rationals; missing values (NaN / None)
are the `Cell.empty` constructor.  All functions are structurally recursive
so that concrete runs of the pipeline reduce inside the kernel.
-/

namespace CarbonOcean

/-! ## Character and string utilities

Python's string primitives used by the source (`str.strip`, `str.lower`,
`str.upper`, `in` substring tests, `split`, `re.sub(r'[^0-9]', ...)`,
decimal rendering of integers) are re-implemented over `List Char` so that
they are structurally recursive and kernel-computable. -/

/-- Python `str.strip()` on a character list: drop leading and trailing
whitespace. -/
def stripChars (l : List Char) : List Char :=
  ((l.dropWhile Char.isWhitespace).reverse.dropWhile Char.isWhitespace).reverse

/-- Python `str.strip()`. -/
def pyStrip (s : String) : String := ⟨stripChars s.data⟩

/-- Python `str.lower()`. -/
def pyLower (s : String) : String := ⟨s.data.map Char.toLower⟩

/-- Python `str.upper()`. -/
def pyUpper (s : String) : String := ⟨s.data.map Char.toUpper⟩

/-- Python `pat in hay` substring containment on character lists. -/
def containsSub (pat : List Char) : List Char → Bool
  | [] => pat.isEmpty
  | c :: rest => pat.isPrefixOf (c :: rest) || containsSub pat rest

/-- Python `pat in hay` on strings. -/
def strContains (hay pat : String) : Bool := containsSub pat.data hay.data

/-- Python `ch in s` single-character containment. -/
def strContainsChar (s : String) (c : Char) : Bool := s.data.contains c

/-- `re.sub(r'[^0-9]', '', s)`: keep only decimal digit characters. -/
def digitsOnly (l : List Char) : List Char := l.filter Char.isDigit

/-- Numeric value of one decimal digit character. -/
def charVal (c : Char) : Nat := c.toNat - 48

/-- Value of a most-significant-first list of decimal digit characters. -/
def natOfDigitChars (l : List Char) : Nat :=
  l.foldl (fun a c => a * 10 + charVal c) 0

/-- Decimal digits of `n`, least significant first, with explicit fuel to
keep the recursion structural. -/
def natToDigitsAux : Nat → Nat → List Nat
  | 0, _ => []
  | _ + 1, 0 => []
  | fuel + 1, n + 1 => ((n + 1) % 10) :: natToDigitsAux fuel ((n + 1) / 10)

/-- Character for a decimal digit value. -/
def digitChar (d : Nat) : Char := Char.ofNat (48 + d)

/-- Decimal rendering of a natural number, as Python `str(n)`. -/
def natStr (n : Nat) : String :=
  if n = 0 then "0" else ⟨((natToDigitsAux n n).map digitChar).reverse⟩

/-- Decimal rendering of an integer, as Python `str(i)`. -/
def intStr (i : Int) : String :=
  if i < 0 then "-" ++ natStr i.natAbs else natStr i.toNat

/-- Python `int(s)` restricted to optionally signed decimal literals with
surrounding whitespace; `none` is the `ValueError` case. -/
def parsePyInt (s : String) : Option Int :=
  match stripChars s.data with
  | '-' :: r => if r ≠ [] ∧ r.all Char.isDigit then some (-(natOfDigitChars r : Int)) else none
  | '+' :: r => if r ≠ [] ∧ r.all Char.isDigit then some (natOfDigitChars r : Int) else none
  | r => if r ≠ [] ∧ r.all Char.isDigit then some (natOfDigitChars r : Int) else none

/-- Split a character list at the first `'.'`, for decimal literals. -/
def splitAtDot : List Char → List Char × Option (List Char)
  | [] => ([], none)
  | c :: rest =>
    if c = '.' then ([], some rest)
    else
      let p := splitAtDot rest
      (c :: p.1, p.2)

/-- Value of a decimal literal `intPart.fracPart` as a rational. -/
def decimalVal (intPart fracPart : List Char) : ℚ :=
  (natOfDigitChars intPart : ℚ) + (natOfDigitChars fracPart : ℚ) / (10 ^ fracPart.length : ℚ)

/-- Numeric coercion of a string, as `pd.to_numeric(s, errors='coerce')` /
`float(s)` on plain decimal literals: optional sign, digits, optional
fractional part.  Anything else (including the textual `"nan"`) yields
`none`, i.e. a missing value. -/
def parseNumStr (s : String) : Option ℚ :=
  let t := stripChars s.data
  let signed : Bool × List Char :=
    match t with
    | '-' :: r => (true, r)
    | '+' :: r => (false, r)
    | r => (false, r)
  let body := signed.2
  let p := splitAtDot body
  let intPart := p.1
  let fracPart := (p.2).getD []
  if intPart.all Char.isDigit ∧ fracPart.all Char.isDigit ∧
      (intPart ≠ [] ∨ fracPart ≠ []) ∧ (p.2 ≠ some [] ∨ intPart ≠ []) then
    some (if signed.1 then -(decimalVal intPart fracPart) else decimalVal intPart fracPart)
  else none

/-- Lexicographic strict comparison of character lists by code point, the
order Python/pandas use when sorting strings. -/
def lexLt : List Char → List Char → Bool
  | _, [] => false
  | [], _ :: _ => true
  | a :: as, b :: bs =>
    if a.toNat < b.toNat then true
    else if b.toNat < a.toNat then false
    else lexLt as bs

/-- Lexicographic strict order on strings by code point. -/
def strLt (s t : String) : Bool := lexLt s.data t.data

/-- Lexicographic non-strict order on strings by code point. -/
def strLe (s t : String) : Bool := !(strLt t s)

/-- Join strings with a separator, as `sep.join(parts)` /
`Series.str.cat(sep=' ')`. -/
def joinSep (sep : String) : List String → String
  | [] => ""
  | [x] => x
  | x :: y :: rest => x ++ sep ++ joinSep sep (y :: rest)

/-! ## Cells and data frames -/

/-- One spreadsheet cell: text, a numeric value, or missing (NaN/None). -/
inductive Cell where
  | str : String → Cell
  | num : ℚ → Cell
  | empty : Cell
deriving DecidableEq

/-- Python `str(value)` of a cell value.  Integral numbers render without a
fractional part; a missing value renders as `"nan"`. -/
def cellToString : Cell → String
  | .str s => s
  | .num q => if q.den = 1 then intStr q.num else intStr q.num ++ "/" ++ natStr q.den
  | .empty => "nan"

/-- `pd.to_numeric(value, errors='coerce')` on one cell: numbers pass
through, numeric text is parsed, everything else becomes missing. -/
def toNumeric : Cell → Option ℚ
  | .str s => parseNumStr s
  | .num q => some q
  | .empty => none

/-- A pandas `DataFrame`: column labels plus row-major cell data. -/
structure DataFrame where
  columns : List String
  rows : List (List Cell)
deriving DecidableEq

/-- Cell of a row at a column position (missing when out of range). -/
def cellAt (r : List Cell) (i : Nat) : Cell := r.getD i Cell.empty

/-- Replace the cell at position `i` (no-op when out of range). -/
def setAt : List Cell → Nat → Cell → List Cell
  | [], _, _ => []
  | _ :: t, 0, v => v :: t
  | h :: t, n + 1, v => h :: setAt t n v

/-- Apply `f` to the cell at position `i` of a row. -/
def mapAt (i : Nat) (f : Cell → Cell) (r : List Cell) : List Cell :=
  setAt r i (f (cellAt r i))

/-- Position of the first column with the given label. -/
def idxOf : List String → String → Option Nat
  | [], _ => none
  | c :: cs, n => if c = n then some 0 else (idxOf cs n).map (· + 1)

/-- Position of a named column in a data frame. -/
def colIdx (df : DataFrame) (name : String) : Option Nat := idxOf df.columns name

/-- `df[name] = df[name].map f` : transform one column in place. -/
def mapColCells (df : DataFrame) (name : String) (f : Cell → Cell) : DataFrame :=
  match colIdx df name with
  | some i => ⟨df.columns, df.rows.map (mapAt i f)⟩
  | none => df

/-- `df = df[pred(df[name])]` : keep rows whose cell in the named column
satisfies the predicate. -/
def filterRowsByCol (df : DataFrame) (name : String) (p : Cell → Bool) : DataFrame :=
  match colIdx df name with
  | some i => ⟨df.columns, df.rows.filter (fun r => p (cellAt r i))⟩
  | none => df

/-! ## Layout classifier and wide transformer (`_is_wide_format_with_years`,
`_transform_wide_to_long`) -/

/-- Non-first column positions whose header parses with `int(col)` to a year
in `[2000, 2030]`, paired with that year. -/
def yearHeaderCols (df : DataFrame) : List (Nat × Int) :=
  ((List.range df.columns.length).drop 1).filterMap (fun j =>
    match parsePyInt (df.columns.getD j "") with
    | some y => if 2000 ≤ y ∧ y ≤ 2030 then some (j, y) else none
    | none => none)

/-- `_is_wide_format_with_years`: at least 3 columns and at least 2 year
headers among the non-first columns. -/
def isWideFormatWithYears (df : DataFrame) : Bool :=
  decide (3 ≤ df.columns.length) && decide (2 ≤ (yearHeaderCols df).length)

/-- `_transform_wide_to_long`: melt the year columns into long format, then
coerce emissions (dropping non-numeric cells), stringify and strip country
labels, and drop the `"nan"` / empty country rows. -/
def transformWideToLong (df : DataFrame) : DataFrame :=
  let ycs := yearHeaderCols df
  if ycs.isEmpty then df
  else
    let melted : List (Cell × Int × Cell) :=
      ycs.flatMap (fun jy => df.rows.map (fun r => (r.headD Cell.empty, jy.2, cellAt r jy.1)))
    let numeric : List (Cell × Int × ℚ) :=
      melted.filterMap (fun t => (toNumeric t.2.2).map (fun q => (t.1, t.2.1, q)))
    let named := numeric.map (fun t => (pyStrip (cellToString t.1), t.2.1, t.2.2))
    let kept := named.filter (fun t => !(t.1 == "nan") && !(t.1 == ""))
    ⟨["Country", "Year", "Emissions"],
     kept.map (fun t => [Cell.str t.1, Cell.num (t.2.1 : ℚ), Cell.num t.2.2])⟩

/-! ## Agency-report (OECD) parser (`_handle_oecd_structure`,
`_parse_oecd_format`, `_extract_year_from_time_period`) -/

/-- Indicator phrases searched for in the first 20 rows. -/
def oecdIndicators : List String := ["reference area", "time period", "maritime", "emissions"]

/-- `df.iloc[i].dropna().astype(str).str.cat(sep=' ')`. -/
def rowStrOf (r : List Cell) : String :=
  joinSep " " ((r.filter (fun c => !(c == Cell.empty))).map cellToString)

/-- Whether a row's concatenated text contains an OECD indicator phrase. -/
def hasOecdIndicator (r : List Cell) : Bool :=
  oecdIndicators.any (fun ind => strContains (pyLower (rowStrOf r)) ind)

/-- Number of rows among the first 20 that contain an indicator phrase. -/
def oecdIndicatorCount (df : DataFrame) : Nat :=
  ((df.rows.take 20).filter hasOecdIndicator).length

/-- Year tokens used to locate the time-period header row. -/
def timeRowTokens : List String := ["2022", "2021", "2020", "2019"]

/-- A time-period header row: more than 5 non-null cells, one of which
mentions a recent year. -/
def timeRowCond (r : List Cell) : Bool :=
  let nn := r.filter (fun c => !(c == Cell.empty))
  decide (5 < nn.length) &&
    nn.any (fun c => timeRowTokens.any (fun y => strContains (cellToString c) y))

/-- Scan for the first time-period header row, tracking the row index. -/
def findTimeRowAux : Nat → List (List Cell) → Option Nat
  | _, [] => none
  | i, r :: rs => if timeRowCond r then some i else findTimeRowAux (i + 1) rs

/-- Index of the time-period header row among the first 15 rows. -/
def findTimeRow (df : DataFrame) : Option Nat := findTimeRowAux 0 (df.rows.take 15)

/-- `re.sub(r'^[·\s ]+', '', s)`: strip leading indentation markers. -/
def stripLeadMarkers (s : String) : String :=
  ⟨s.data.dropWhile (fun c => c = '·' || c = '\u2007' || c.isWhitespace)⟩

/-- One record emitted by the agency-report parser before year extraction. -/
structure OecdRec where
  country : String
  otp : String
  emissions : ℚ
deriving DecidableEq

/-- The time periods: non-null cells of the header row after the first
column. -/
def timePeriodsOf (df : DataFrame) (t : Nat) : List Cell :=
  ((df.rows.getD t []).drop 1).filter (fun c => !(c == Cell.empty))

/-- Records contributed by one data row: the row must have more than 5
non-null cells; its first non-null cell (stripped of indentation) is the
country unless `"nan"`/`"NaN"`/empty; each time period aligned with a
numeric-coercible value yields a record.  The source's `pd.notna(values[j])`
check always holds here because `values` contains only non-null cells. -/
def rowRecords (tps : List Cell) (r : List Cell) : List OecdRec :=
  let nn := r.filter (fun c => !(c == Cell.empty))
  if 5 < nn.length then
    let country := stripLeadMarkers (pyStrip (cellToString (nn.headD Cell.empty)))
    if !(country == "nan") && !(country == "NaN") && !(country == "") then
      let vals := nn.drop 1
      tps.enum.filterMap (fun jt =>
        if jt.1 < vals.length then
          (toNumeric (cellAt vals jt.1)).map (fun q => ⟨country, cellToString jt.2, q⟩)
        else none)
    else []
  else []

/-- `_extract_year_from_time_period`, step 1: the first 4-digit substring. -/
def firstFourDigits : List Char → Option Nat
  | a :: b :: c :: d :: rest =>
    if a.isDigit && b.isDigit && c.isDigit && d.isDigit then
      some (((charVal a * 10 + charVal b) * 10 + charVal c) * 10 + charVal d)
    else firstFourDigits (b :: c :: d :: rest)
  | _ => none

/-- `_extract_year_from_time_period`: first 4-digit substring, accepted only
in `[1900, 2030]`. -/
def extractYearFromTimePeriod (s : String) : Option Nat :=
  match firstFourDigits s.data with
  | some y => if 1900 ≤ y ∧ y ≤ 2030 then some y else none
  | none => none

/-- All records produced by the agency-report parser. -/
def parseOecdRecs (df : DataFrame) : List OecdRec :=
  match findTimeRow df with
  | none => []
  | some t => (df.rows.drop (t + 2)).flatMap (rowRecords (timePeriodsOf df t))

/-- Canonical row of one agency-report record: extracted year (missing when
unextractable) plus the preserved original period label. -/
def oecdRecRow (rec : OecdRec) : List Cell :=
  [Cell.str rec.country,
   (match extractYearFromTimePeriod rec.otp with
    | some y => Cell.num (y : ℚ)
    | none => Cell.empty),
   Cell.num rec.emissions,
   Cell.str rec.otp]

/-- Column labels of the agency-report parser output. -/
def oecdColumns : List String := ["Country", "Year", "Emissions", "Original_Time_Period"]

/-- `_parse_oecd_format`: declines (returns the input unchanged) when no
time-period header row is found or no records are produced. -/
def parseOecdFormat (df : DataFrame) : DataFrame :=
  match findTimeRow df with
  | none => df
  | some t =>
    let recs := (df.rows.drop (t + 2)).flatMap (rowRecords (timePeriodsOf df t))
    if recs.isEmpty then df else ⟨oecdColumns, recs.map oecdRecRow⟩

/-- `_handle_oecd_structure`: wide layout first, then the agency-report
layout when at least 2 indicator rows are present, else pass through. -/
def handleOecdStructure (df : DataFrame) : DataFrame :=
  if isWideFormatWithYears df then transformWideToLong df
  else if 2 ≤ oecdIndicatorCount df then parseOecdFormat df
  else df

/-! ## Column mapper (`_map_columns`) -/

/-- The three required canonical columns. -/
def requiredColumns : List String := ["Country", "Year", "Emissions"]

/-- Country-column synonyms (verbatim from the source). -/
def countrySynonyms : List String :=
  ["Country", "COUNTRY", "Countries", "COUNTRIES", "Country Name", "Region", "REGION",
   "Location", "LOCATION", "Reference area", "REFERENCE_AREA", "REF_AREA", "Reference Area"]

/-- Year-column synonyms (verbatim from the source, duplicate included). -/
def yearSynonyms : List String :=
  ["Year", "YEAR", "Time", "TIME", "Period", "Date", "TIME_PERIOD",
   "Time period", "TIME_PERIOD", "Time Period", "TIME PERIOD"]

/-- Emissions-column synonyms (verbatim from the source). -/
def emissionsSynonyms : List String :=
  ["Emissions", "EMISSIONS", "CO2", "CO2_EMISSIONS", "Value", "VALUE",
   "Tonnes", "Mt CO2", "CO2 Emissions", "Carbon Emissions", "Emission",
   "OBS_VALUE", "Obs Value", "Observation Value"]

/-- Case-insensitive equality of a synonym and a column label. -/
def eqCI (a b : String) : Bool := pyLower a == pyLower b

/-- Exact case-insensitive match against the country synonyms. -/
def exactCountryMatch (cs : String) : Bool := countrySynonyms.any (fun v => eqCI v cs)

/-- Exact case-insensitive match against the year synonyms. -/
def exactYearMatch (cs : String) : Bool := yearSynonyms.any (fun v => eqCI v cs)

/-- Exact case-insensitive match against the emissions synonyms. -/
def exactEmissionsMatch (cs : String) : Bool := emissionsSynonyms.any (fun v => eqCI v cs)

/-- Case-insensitive substring match against the emissions synonyms. -/
def substringEmissionsMatch (cs : String) : Bool :=
  emissionsSynonyms.any (fun v => strContains (pyLower cs) (pyLower v))

/-- Canonical name for one column header, first matching rule winning:
exact country, exact year, exact emissions, then substring emissions. -/
def canonicalNameFor (col : String) : Option String :=
  let cs := pyStrip col
  if exactCountryMatch cs then some "Country"
  else if exactYearMatch cs then some "Year"
  else if exactEmissionsMatch cs then some "Emissions"
  else if substringEmissionsMatch cs then some "Emissions"
  else none

/-- `_map_columns`: rename matched columns, leave the rest unchanged.
Distinct synonyms may map to the same canonical name, leaving the frame
with duplicated column labels. -/
def mapColumns (df : DataFrame) : DataFrame :=
  ⟨df.columns.map (fun c => (canonicalNameFor c).getD c), df.rows⟩

/-- The Country step of `_clean_data` runs
`df['Country'].astype(str).str.strip()` whenever `'Country' in df.columns`.
When the label `Country` occurs more than once, `df['Country']` selects a
DataFrame rather than a Series and `.str` raises `AttributeError`, which
`load_and_clean_data` re-raises as a generic processing exception: the run
aborts inside the cleaner, before `_validate_data`. This predicate is the
exact trigger condition of that raise. -/
def countryCleanRaises (df : DataFrame) : Bool :=
  df.columns.contains "Country" && decide (2 ≤ df.columns.count "Country")

/-- The Emissions step of `_clean_data` runs `pd.to_numeric(df['Emissions'],
errors='coerce')` whenever `'Emissions' in df.columns`. When the label
`Emissions` occurs more than once, `df['Emissions']` selects a DataFrame and
`pd.to_numeric` raises `TypeError`, re-raised by `load_and_clean_data` as a
generic processing exception before `_validate_data` runs. This predicate is
the exact trigger condition of that raise. -/
def emissionsCleanRaises (df : DataFrame) : Bool :=
  df.columns.contains "Emissions" && decide (2 ≤ df.columns.count "Emissions")

/-! ## Field cleaners (`_clean_data`, `_parse_time_period`) -/

/-- `df.dropna(how='all')`: drop rows whose cells are all missing. -/
def dropAllNaRows (df : DataFrame) : DataFrame :=
  ⟨df.columns, df.rows.filter (fun r => r.any (fun c => !(c == Cell.empty)))⟩

/-- `df.dropna(axis=1, how='all')`: drop columns whose cells are all
missing; surviving rows are rebuilt column-by-column, so the result is
always rectangular. -/
def dropAllNaCols (df : DataFrame) : DataFrame :=
  let keep := (List.range df.columns.length).filter
    (fun j => df.rows.any (fun r => !(cellAt r j == Cell.empty)))
  ⟨keep.map (fun j => df.columns.getD j ""), df.rows.map (fun r => keep.map (fun j => cellAt r j))⟩

/-- Country cleaning: `astype(str).str.strip()`, then drop `"nan"` and
empty labels. -/
def cleanCountryCol (df : DataFrame) : DataFrame :=
  let d := mapColCells df "Country" (fun c => Cell.str (pyStrip (cellToString c)))
  let d2 := filterRowsByCol d "Country" (fun c => !(c == Cell.str "nan"))
  filterRowsByCol d2 "Country" (fun c => !(c == Cell.str ""))

/-- An integral numeric cell, the value-level reading of pandas'
integer-dtype test. -/
def isIntCell : Cell → Bool
  | .num q => q.den == 1
  | _ => false

/-- `pd.api.types.is_integer_dtype(df['Year'])`, read at the value level:
every cell of the Year column is an integral number. -/
def yearColIsInt (df : DataFrame) : Bool :=
  match colIdx df "Year" with
  | some i => df.rows.all (fun r => isIntCell (cellAt r i))
  | none => false

/-- `_parse_time_period` on one already-stringified-and-stripped value:
split before `'-'`, else before `'M'` (after uppercasing), else take the
whole string; keep digits only; empty digit string means unparseable. -/
def parseTimePeriodStr (s : String) : Option Nat :=
  if strContainsChar s '-' then
    let yp := digitsOnly (s.data.takeWhile (fun c => !(c == '-')))
    if yp.isEmpty then none else some (natOfDigitChars yp)
  else if strContainsChar (pyUpper s) 'M' then
    let yp := digitsOnly ((pyUpper s).data.takeWhile (fun c => !(c == 'M')))
    if yp.isEmpty then none else some (natOfDigitChars yp)
  else
    let yp := digitsOnly s.data
    if yp.isEmpty then none else some (natOfDigitChars yp)

/-- `_parse_time_period` on one cell: `str(value).strip()` then parse. -/
def parseTimePeriodCell (c : Cell) : Option Nat :=
  parseTimePeriodStr (pyStrip (cellToString c))

/-- Year cleaning: when the column is not already integral, parse each
value as a time period, drop unparseable rows, and cast to integer. -/
def cleanYearCol (df : DataFrame) : DataFrame :=
  if yearColIsInt df then df
  else
    let d := mapColCells df "Year" (fun c =>
      match parseTimePeriodCell c with
      | some n => Cell.num (n : ℚ)
      | none => Cell.empty)
    filterRowsByCol d "Year" (fun c => !(c == Cell.empty))

/-- `str()` of one cell of a float64 column. The agency-report parser emits
Year values as `int`-or-`None`; `pd.DataFrame` then types the column float64
whenever a `None` is present, and Python prints an integral float with a
trailing `.0` (`str(2019.0) = "2019.0"`), unlike an int64 cell. Missing
cells print as `"nan"`. (Non-integral rationals, which the agency Year
column never holds, are rendered as in `cellToString`.) -/
def cellToStringFloat : Cell → String
  | .str s => s
  | .num q => if q.den = 1 then intStr q.num ++ ".0" else intStr q.num ++ "/" ++ natStr q.den
  | .empty => "nan"

/-- `_parse_time_period` on one cell of a float64 Year column: the value is
stringified with its float rendering before parsing, so an integral year
`2019.0` digit-strips to `20190`. -/
def parseTimePeriodCellFloat (c : Cell) : Option Nat :=
  parseTimePeriodStr (pyStrip (cellToStringFloat c))

/-- The Year cleaning step of `_clean_data` as it runs on a float64 Year
column (the dtype `_parse_oecd_format` produces whenever any record's year
is missing): not integer-dtyped, so each value is stringified — with the
float rendering — parsed as a time period, and unparseable rows are
dropped. -/
def cleanYearColFloat (df : DataFrame) : DataFrame :=
  if yearColIsInt df then df
  else
    let d := mapColCells df "Year" (fun c =>
      match parseTimePeriodCellFloat c with
      | some n => Cell.num (n : ℚ)
      | none => Cell.empty)
    filterRowsByCol d "Year" (fun c => !(c == Cell.empty))

/-- Emissions cleaning: numeric-coerce, drop missing, drop negatives. -/
def cleanEmissionsCol (df : DataFrame) : DataFrame :=
  let d := mapColCells df "Emissions" (fun c =>
    match toNumeric c with
    | some q => Cell.num q
    | none => Cell.empty)
  let d2 := filterRowsByCol d "Emissions" (fun c => !(c == Cell.empty))
  filterRowsByCol d2 "Emissions" (fun c =>
    match c with
    | .num q => decide (0 ≤ q)
    | _ => false)

/-- `df.dropna(subset=required_columns)` when all three are present. -/
def dropMissingRequired (df : DataFrame) : DataFrame :=
  if requiredColumns.all (fun c => df.columns.contains c) then
    ⟨df.columns, df.rows.filter (fun r => requiredColumns.all (fun c =>
      match colIdx df c with
      | some i => !(cellAt r i == Cell.empty)
      | none => true))⟩
  else df

/-- Sort key for the Country column: the cell's text. -/
def countryKeyAt (i : Nat) (r : List Cell) : String := cellToString (cellAt r i)

/-- Sort key for the Year column: the cell's numeric value. -/
def yearKeyAt (i : Nat) (r : List Cell) : ℚ :=
  match cellAt r i with
  | .num q => q
  | _ => 0

/-- Row order for `sort_values(['Country', 'Year'])`: country text first
(lexicographically by code point), then year. -/
def RowLeCY (ci yi : Nat) (r1 r2 : List Cell) : Prop :=
  strLt (countryKeyAt ci r1) (countryKeyAt ci r2) = true ∨
    (countryKeyAt ci r1 = countryKeyAt ci r2 ∧ yearKeyAt yi r1 ≤ yearKeyAt yi r2)

instance (ci yi : Nat) : DecidableRel (RowLeCY ci yi) := fun r1 r2 => by
  unfold RowLeCY; infer_instance

/-- Row order for `sort_values(['Country'])`. -/
def RowLeC (ci : Nat) (r1 r2 : List Cell) : Prop :=
  strLt (countryKeyAt ci r1) (countryKeyAt ci r2) = true ∨
    countryKeyAt ci r1 = countryKeyAt ci r2

instance (ci : Nat) : DecidableRel (RowLeC ci) := fun r1 r2 => by
  unfold RowLeC; infer_instance

/-- Row order for `sort_values(['Year'])`. -/
def RowLeY (yi : Nat) (r1 r2 : List Cell) : Prop :=
  yearKeyAt yi r1 ≤ yearKeyAt yi r2

instance (yi : Nat) : DecidableRel (RowLeY yi) := fun r1 r2 => by
  unfold RowLeY; infer_instance

/-- `df.sort_values(sort_cols)` with the columns that exist. -/
def sortValues (df : DataFrame) : DataFrame :=
  match colIdx df "Country", colIdx df "Year" with
  | some ci, some yi => ⟨df.columns, List.insertionSort (RowLeCY ci yi) df.rows⟩
  | some ci, none => ⟨df.columns, List.insertionSort (RowLeC ci) df.rows⟩
  | none, some yi => ⟨df.columns, List.insertionSort (RowLeY yi) df.rows⟩
  | none, none => df

/-- `_clean_data`: drop empty rows/columns, map columns when the canonical
ones are not all present, clean each canonical column that exists, drop
rows missing required data, and sort. -/
def cleanData (df0 : DataFrame) : DataFrame :=
  let df1 := dropAllNaRows df0
  let df2 := dropAllNaCols df1
  let df3 := if requiredColumns.all (fun c => df2.columns.contains c) then df2 else mapColumns df2
  let df4 := if df3.columns.contains "Country" then cleanCountryCol df3 else df3
  let df5 := if df4.columns.contains "Year" then cleanYearCol df4 else df4
  let df6 := if df5.columns.contains "Emissions" then cleanEmissionsCol df5 else df5
  let df7 := dropMissingRequired df6
  sortValues df7

/-- The frame after the layout-mapping stage of `_clean_data`, whose column
set the later stages preserve. -/
def mappedFrame (df0 : DataFrame) : DataFrame :=
  let df2 := dropAllNaCols (dropAllNaRows df0)
  if requiredColumns.all (fun c => df2.columns.contains c) then df2 else mapColumns df2

/-! ## Validator (`_validate_data`) and pipeline (`load_and_clean_data`) -/

/-- The spec's fatal-failure taxonomy for `_validate_data`: in the source
both cases raise `ValueError` whose message carries, for the schema case,
the missing canonical fields and the columns actually present. -/
inductive ValidationError where
  | schemaError (missing : List String) (available : List String)
  | emptyDataset
deriving DecidableEq

/-- `_validate_data`: missing required columns first, then emptiness.  The
year-range and emissions-magnitude checks of the source are advisory
`st.warning` calls that never raise, so they have no effect on the result
and are not modelled. -/
def validateData (df : DataFrame) : Except ValidationError Unit :=
  if (requiredColumns.filter (fun c => !(df.columns.contains c))).isEmpty then
    if df.rows.length = 0 then Except.error ValidationError.emptyDataset
    else Except.ok ()
  else Except.error (ValidationError.schemaError
    (requiredColumns.filter (fun c => !(df.columns.contains c))) df.columns)

/-- `load_and_clean_data` after the sheet has been read: classify and
transform, clean, validate. -/
def loadAndCleanData (df : DataFrame) : Except ValidationError DataFrame :=
  (validateData (cleanData (handleOecdStructure df))).map
    (fun _ => cleanData (handleOecdStructure df))

/-- `_clean_data` with the Year column read at the float64 dtype the
agency-report path produces (mixed extracted years and `None`): identical to
`cleanData` except that the Year re-parse stringifies integral cells with a
trailing `.0`. -/
def cleanDataFloat (df0 : DataFrame) : DataFrame :=
  let df1 := dropAllNaRows df0
  let df2 := dropAllNaCols df1
  let df3 := if requiredColumns.all (fun c => df2.columns.contains c) then df2 else mapColumns df2
  let df4 := if df3.columns.contains "Country" then cleanCountryCol df3 else df3
  let df5 := if df4.columns.contains "Year" then cleanYearColFloat df4 else df4
  let df6 := if df5.columns.contains "Emissions" then cleanEmissionsCol df5 else df5
  let df7 := dropMissingRequired df6
  sortValues df7

/-- `load_and_clean_data` on an input whose cleaned Year column carries the
float64 dtype (the agency-report path with any missing year). -/
def loadAndCleanDataFloat (df : DataFrame) : Except ValidationError DataFrame :=
  (validateData (cleanDataFloat (handleOecdStructure df))).map
    (fun _ => cleanDataFloat (handleOecdStructure df))

/-! ## Trends (`calculate_trends`) -/

/-- One row of the trends table. -/
structure TrendRow where
  country : Cell
  firstYear : ℚ
  lastYear : ℚ
  firstEmissions : ℚ
  lastEmissions : ℚ
  trendPct : ℚ
  direction : String
deriving DecidableEq

/-- Numeric value of a cell, `0` for non-numeric (never hit on cleaned
tables). -/
def valQ : Cell → ℚ
  | .num q => q
  | _ => 0

/-- `Series.unique()`: distinct values in order of first appearance. -/
def uniqueFirstAux (seen : List Cell) : List Cell → List Cell
  | [] => []
  | a :: l =>
    if seen.contains a then uniqueFirstAux seen l
    else a :: uniqueFirstAux (a :: seen) l

/-- `Series.unique()`. -/
def uniqueFirst (l : List Cell) : List Cell := uniqueFirstAux [] l

/-- `country_data`: the rows carrying one country value, sorted by year. -/
def countryRows (df : DataFrame) (ci yi : Nat) (c : Cell) : List (List Cell) :=
  List.insertionSort (RowLeY yi) (df.rows.filter (fun r => cellAt r ci == c))

/-- Body of the `calculate_trends` loop: a trend row for one country value,
produced only when it has more than one observation. -/
def trendRowFor (df : DataFrame) (ci yi ei : Nat) (c : Cell) : Option TrendRow :=
  if 1 < (countryRows df ci yi c).length then
    let firstRow := (countryRows df ci yi c).headD []
    let lastRow := (countryRows df ci yi c).getLastD []
    let firstE := valQ (cellAt firstRow ei)
    let lastE := valQ (cellAt lastRow ei)
    let pct := if 0 < firstE then (lastE - firstE) / firstE * 100 else 0
    some ⟨c, valQ (cellAt firstRow yi), valQ (cellAt lastRow yi), firstE, lastE, pct,
      if 0 < pct then "Increasing" else if pct < 0 then "Decreasing" else "Stable"⟩
  else none

/-- `calculate_trends`: per country with more than one observation, compare
the first and last year's emissions (rows sorted by year). -/
def calculateTrends (df : DataFrame) : List TrendRow :=
  if requiredColumns.all (fun c => df.columns.contains c) then
    (uniqueFirst (df.rows.map (fun r => cellAt r ((colIdx df "Country").getD 0)))).filterMap
      (trendRowFor df ((colIdx df "Country").getD 0) ((colIdx df "Year").getD 0)
        ((colIdx df "Emissions").getD 0))
  else []

/-! ## Equality instances and concrete tables used to exercise the claims -/

instance {ε α : Type} [DecidableEq ε] [DecidableEq α] : DecidableEq (Except ε α) := fun a b =>
  match a, b with
  | .ok x, .ok y => decidable_of_iff (x = y) (by simp)
  | .ok _, .error _ => isFalse (by simp)
  | .error _, .ok _ => isFalse (by simp)
  | .error e, .error f => decidable_of_iff (e = f) (by simp)

/-- Value of a least-significant-first list of decimal digits (proof
helper for the decimal-rendering round trip). -/
def lsbVal : List Nat → Nat
  | [] => 0
  | d :: ds => d + 10 * lsbVal ds

/-- The wide-format table of the spec's Scenario A. -/
def scenarioWide : DataFrame :=
  ⟨["Country", "2020", "2021"],
   [[Cell.str "USA", Cell.str "10", Cell.str "20"],
    [Cell.str "France", Cell.str "nan", Cell.str "5"]]⟩

/-- The long-format table of the spec's Scenario B. -/
def scenarioLong : DataFrame :=
  ⟨["Reference area", "TIME_PERIOD", "OBS_VALUE"],
   [[Cell.str "Norway", Cell.str "2019-M03", Cell.num 7]]⟩

/-- A table with no emissions-like column (the spec's Scenario C). -/
def scenarioNoEmissions : DataFrame :=
  ⟨["Country", "Year", "Notes"],
   [[Cell.str "USA", Cell.num 2020, Cell.str "x"]]⟩

/-- A table whose only emissions value is negative (the spec's Scenario D). -/
def scenarioNegative : DataFrame :=
  ⟨["Country", "Year", "Emissions"],
   [[Cell.str "USA", Cell.num 2020, Cell.num (-5)]]⟩

/-- A small long-format table with out-of-order rows. -/
def sampleUnsorted : DataFrame :=
  ⟨["Country", "Year", "Emissions"],
   [[Cell.str "B", Cell.num 2020, Cell.num 1],
    [Cell.str "A", Cell.num 2021, Cell.num 2],
    [Cell.str "A", Cell.num 2019, Cell.num 3]]⟩

/-- The canonical table the pipeline produces from `sampleUnsorted`. -/
def sampleSortedOut : DataFrame :=
  ⟨["Country", "Year", "Emissions"],
   [[Cell.str "A", Cell.num 2019, Cell.num 3],
    [Cell.str "A", Cell.num 2021, Cell.num 2],
    [Cell.str "B", Cell.num 2020, Cell.num 1]]⟩

/-- A single-column table matched by no layout and no column synonym. -/
def sampleUnmatched : DataFrame := ⟨["A"], [[Cell.str "x"]]⟩

/-- An agency-report-shaped table: two metadata rows carrying indicator
phrases, a time-period header row with six periods, a skipped subheader
row, and one country data row with six values. -/
def sampleAgency : DataFrame :=
  ⟨["c1", "c2", "c3", "c4", "c5", "c6", "c7"],
   [[Cell.str "OECD maritime transport CO2 emissions"],
    [Cell.str "Reference area by time period"],
    [Cell.empty, Cell.str "2019-Jan", Cell.str "2019-Feb", Cell.str "2019-Mar",
     Cell.str "2019-Apr", Cell.str "2019-May", Cell.str "2019-Jun"],
    [Cell.empty],
    [Cell.str "Norway", Cell.num 1, Cell.num 2, Cell.num 3,
     Cell.num 4, Cell.num 5, Cell.num 6]]⟩

/-- The canonical table the pipeline produces from `sampleAgency`. -/
def sampleAgencyOut : DataFrame :=
  ⟨["Country", "Year", "Emissions", "Original_Time_Period"],
   [[Cell.str "Norway", Cell.num 2019, Cell.num 1, Cell.str "2019-Jan"],
    [Cell.str "Norway", Cell.num 2019, Cell.num 2, Cell.str "2019-Feb"],
    [Cell.str "Norway", Cell.num 2019, Cell.num 3, Cell.str "2019-Mar"],
    [Cell.str "Norway", Cell.num 2019, Cell.num 4, Cell.str "2019-Apr"],
    [Cell.str "Norway", Cell.num 2019, Cell.num 5, Cell.str "2019-May"],
    [Cell.str "Norway", Cell.num 2019, Cell.num 6, Cell.str "2019-Jun"]]⟩

/-- An agency-report table whose time periods mix extractable labels with
an unextractable `"Total"` column, so the parsed Year column holds both
years and a missing value (float64 in pandas). -/
def sampleMixedAgency : DataFrame :=
  ⟨["c1", "c2", "c3", "c4", "c5", "c6", "c7"],
   [[Cell.str "OECD maritime transport CO2 emissions"],
    [Cell.str "Reference area by time period"],
    [Cell.empty, Cell.str "2019-Jan", Cell.str "2019-Feb", Cell.str "2019-Mar",
     Cell.str "2019-Apr", Cell.str "2019-May", Cell.str "Total"],
    [Cell.empty],
    [Cell.str "Norway", Cell.num 1, Cell.num 2, Cell.num 3,
     Cell.num 4, Cell.num 5, Cell.num 21]]⟩

/-- What the pipeline produces from `sampleMixedAgency`: the `"Total"`
record is dropped, and every surviving year is the mangled `20190` —
`str(2019.0) = "2019.0"` digit-stripped — not the extracted `2019`. -/
def sampleMixedAgencyOut : DataFrame :=
  ⟨["Country", "Year", "Emissions", "Original_Time_Period"],
   [[Cell.str "Norway", Cell.num 20190, Cell.num 1, Cell.str "2019-Jan"],
    [Cell.str "Norway", Cell.num 20190, Cell.num 2, Cell.str "2019-Feb"],
    [Cell.str "Norway", Cell.num 20190, Cell.num 3, Cell.str "2019-Mar"],
    [Cell.str "Norway", Cell.num 20190, Cell.num 4, Cell.str "2019-Apr"],
    [Cell.str "Norway", Cell.num 20190, Cell.num 5, Cell.str "2019-May"]]⟩

/-- A table whose two value columns are both emissions synonyms: after
mapping, the label `Emissions` is duplicated while `Year` is absent. -/
def sampleDupValue : DataFrame :=
  ⟨["Country", "Value", "VALUE"],
   [[Cell.str "USA", Cell.num 1, Cell.num 2]]⟩

/-- A table whose first two columns are both country synonyms: after
mapping, the label `Country` is duplicated. -/
def sampleDupCountry : DataFrame :=
  ⟨["Region", "LOCATION", "Year", "Emissions"],
   [[Cell.str "USA", Cell.str "US", Cell.num 2020, Cell.num 1]]⟩

/-- The single trend row computed from `sampleUnsorted`. -/
def sampleTrendRow : TrendRow :=
  ⟨Cell.str "A", 2019, 2021, 3, 2, (2 - 3 : ℚ) / 3 * 100, "Decreasing"⟩

/-- A rectangular frame: every row has exactly one cell per column. -/
def Rect (df : DataFrame) : Prop := ∀ r ∈ df.rows, r.length = df.columns.length

/-- Every row's cell at position `i` satisfies `Q`. -/
def CellProp (i : Nat) (Q : Cell → Prop) (df : DataFrame) : Prop :=
  ∀ r ∈ df.rows, Q (cellAt r i)

/-! ## Order lemmas for the sort relations -/

theorem char_eq_of_toNat_eq {a b : Char} (h : a.toNat = b.toNat) : a = b :=
  Char.eq_of_val_eq (UInt32.ext h)

theorem lexLt_irrefl : ∀ l : List Char, lexLt l l = false := by
  intro l
  induction l with
  | nil => rfl
  | cons a as ih => simp [lexLt, ih]

theorem lexLt_asymm : ∀ l1 l2 : List Char, lexLt l1 l2 = true → lexLt l2 l1 = false := by
  intro l1
  induction l1 with
  | nil =>
    intro l2 h
    cases l2 with
    | nil => simpa [lexLt] using h
    | cons b bs => rfl
  | cons a as ih =>
    intro l2 h
    cases l2 with
    | nil => simp [lexLt] at h
    | cons b bs =>
      by_cases hab : a.toNat < b.toNat
      · simp [lexLt, hab, Nat.lt_asymm hab]
      · by_cases hba : b.toNat < a.toNat
        · simp [lexLt, hab, hba] at h
        · simp [lexLt, hab, hba] at h ⊢
          exact ih bs h

theorem lexLt_trans : ∀ l1 l2 l3 : List Char,
    lexLt l1 l2 = true → lexLt l2 l3 = true → lexLt l1 l3 = true := by
  intro l1
  induction l1 with
  | nil =>
    intro l2 l3 h12 h23
    cases l3 with
    | nil =>
      cases l2 with
      | nil => simpa [lexLt] using h12
      | cons b bs => simpa [lexLt] using h23
    | cons c cs => rfl
  | cons a as ih =>
    intro l2 l3 h12 h23
    cases l2 with
    | nil => simp [lexLt] at h12
    | cons b bs =>
      cases l3 with
      | nil => simp [lexLt] at h23
      | cons c cs =>
        simp only [lexLt] at h12 h23 ⊢
        by_cases hab : a.toNat < b.toNat <;> by_cases hbc : b.toNat < c.toNat
        · simp [show a.toNat < c.toNat by omega]
        · by_cases hcb : c.toNat < b.toNat
          · simp [hbc, hcb] at h23
          · have : b.toNat = c.toNat := by omega
            simp [show a.toNat < c.toNat by omega]
        · by_cases hba : b.toNat < a.toNat
          · simp [hab, hba] at h12
          · have : a.toNat = b.toNat := by omega
            simp [show a.toNat < c.toNat by omega]
        · by_cases hba : b.toNat < a.toNat
          · simp [hab, hba] at h12
          · by_cases hcb : c.toNat < b.toNat
            · simp [hbc, hcb] at h23
            · have h1 : a.toNat = b.toNat := by omega
              have h2 : b.toNat = c.toNat := by omega
              simp [hab, hba, hbc, hcb, show ¬ a.toNat < c.toNat by omega,
                show ¬ c.toNat < a.toNat by omega] at h12 h23 ⊢
              exact ih bs cs h12 h23

theorem lexLt_connex : ∀ l1 l2 : List Char,
    lexLt l1 l2 = false → lexLt l2 l1 = false → l1 = l2 := by
  intro l1
  induction l1 with
  | nil =>
    intro l2 h12 _
    cases l2 with
    | nil => rfl
    | cons b bs => simp [lexLt] at h12
  | cons a as ih =>
    intro l2 h12 h21
    cases l2 with
    | nil => simp [lexLt] at h21
    | cons b bs =>
      by_cases hab : a.toNat < b.toNat
      · simp [lexLt, hab] at h12
      · by_cases hba : b.toNat < a.toNat
        · simp [lexLt, hba] at h21
        · have heq : a = b := char_eq_of_toNat_eq (by omega)
          simp [lexLt, hab, hba] at h12 h21
          rw [heq, ih bs h12 h21]

theorem str_eq_of_data_eq {s t : String} (h : s.data = t.data) : s = t := by
  cases s; cases t; exact congrArg String.mk h

theorem strLt_asymm {s t : String} (h : strLt s t = true) : strLt t s = false :=
  lexLt_asymm s.data t.data h

theorem strLt_connex {s t : String} (h1 : strLt s t = false) (h2 : strLt t s = false) :
    s = t :=
  str_eq_of_data_eq (lexLt_connex s.data t.data h1 h2)

theorem strLe_of_strLt {s t : String} (h : strLt s t = true) : strLe s t = true := by
  unfold strLe
  rw [strLt_asymm h]
  rfl

theorem strLe_refl (s : String) : strLe s s = true := by
  unfold strLe strLt
  rw [lexLt_irrefl]
  rfl

instance rowLeCYIsTotal (ci yi : Nat) : IsTotal (List Cell) (RowLeCY ci yi) := by
  constructor
  intro r1 r2
  by_cases h12 : strLt (countryKeyAt ci r1) (countryKeyAt ci r2) = true
  · exact Or.inl (Or.inl h12)
  · by_cases h21 : strLt (countryKeyAt ci r2) (countryKeyAt ci r1) = true
    · exact Or.inr (Or.inl h21)
    · have heq := strLt_connex (by simpa using h12) (by simpa using h21)
      rcases le_total (yearKeyAt yi r1) (yearKeyAt yi r2) with hy | hy
      · exact Or.inl (Or.inr ⟨heq, hy⟩)
      · exact Or.inr (Or.inr ⟨heq.symm, hy⟩)

instance rowLeCYIsTrans (ci yi : Nat) : IsTrans (List Cell) (RowLeCY ci yi) := by
  constructor
  intro r1 r2 r3 h12 h23
  rcases h12 with h12 | ⟨he12, hy12⟩
  · rcases h23 with h23 | ⟨he23, hy23⟩
    · exact Or.inl (lexLt_trans _ _ _ h12 h23)
    · exact Or.inl (he23 ▸ h12)
  · rcases h23 with h23 | ⟨he23, hy23⟩
    · exact Or.inl (he12 ▸ h23)
    · exact Or.inr ⟨he12.trans he23, hy12.trans hy23⟩

/-! ## Basic lemmas about rows, cells and column lookup -/

theorem length_setAt : ∀ (r : List Cell) (i : Nat) (v : Cell), (setAt r i v).length = r.length := by
  intro r
  induction r with
  | nil => intro i v; rfl
  | cons h t ih =>
    intro i v
    cases i with
    | zero => rfl
    | succ n => simp [setAt, ih]

theorem cellAt_of_length_le : ∀ (r : List Cell) (i : Nat), r.length ≤ i → cellAt r i = Cell.empty := by
  intro r
  induction r with
  | nil => intro i _; cases i <;> rfl
  | cons h t ih =>
    intro i hi
    cases i with
    | zero => simp at hi
    | succ n => simpa [cellAt] using ih n (by simpa using hi)

theorem lt_length_of_cellAt_ne {r : List Cell} {i : Nat} (h : cellAt r i ≠ Cell.empty) :
    i < r.length := by
  by_contra hc
  exact h (cellAt_of_length_le r i (by omega))

theorem cellAt_setAt_self : ∀ (r : List Cell) (i : Nat) (v : Cell), i < r.length →
    cellAt (setAt r i v) i = v := by
  intro r
  induction r with
  | nil => intro i v hi; simp at hi
  | cons h t ih =>
    intro i v hi
    cases i with
    | zero => rfl
    | succ n => simpa [setAt, cellAt] using ih n v (by simpa using hi)

theorem cellAt_setAt_ne : ∀ (r : List Cell) (i j : Nat) (v : Cell), i ≠ j →
    cellAt (setAt r j v) i = cellAt r i := by
  intro r
  induction r with
  | nil => intro i j v _; rfl
  | cons h t ih =>
    intro i j v hij
    cases j with
    | zero =>
      cases i with
      | zero => exact absurd rfl hij
      | succ m => rfl
    | succ n =>
      cases i with
      | zero => rfl
      | succ m => simpa [setAt, cellAt] using ih m n v (by omega)

theorem cellAt_mapAt_self {r : List Cell} {i : Nat} (f : Cell → Cell) (h : i < r.length) :
    cellAt (mapAt i f r) i = f (cellAt r i) :=
  cellAt_setAt_self r i (f (cellAt r i)) h

theorem cellAt_mapAt_ne {r : List Cell} {i j : Nat} (f : Cell → Cell) (h : i ≠ j) :
    cellAt (mapAt j f r) i = cellAt r i :=
  cellAt_setAt_ne r i j (f (cellAt r j)) h

theorem idxOf_lt_length : ∀ (l : List String) (n : String) (i : Nat),
    idxOf l n = some i → i < l.length := by
  intro l
  induction l with
  | nil => intro n i h; simp [idxOf] at h
  | cons c cs ih =>
    intro n i h
    by_cases hc : c = n
    · simp [idxOf, hc] at h
      simp [← h]
    · simp [idxOf, hc] at h
      obtain ⟨j, hj, hji⟩ := h
      have := ih n j hj
      simp only [List.length_cons]
      omega

theorem idxOf_getD : ∀ (l : List String) (n : String) (i : Nat),
    idxOf l n = some i → l.getD i "" = n := by
  intro l
  induction l with
  | nil => intro n i h; simp [idxOf] at h
  | cons c cs ih =>
    intro n i h
    by_cases hc : c = n
    · simp [idxOf, hc] at h
      simp [← h, hc]
    · simp [idxOf, hc] at h
      obtain ⟨j, hj, hji⟩ := h
      rw [← hji]
      simpa [List.getD] using ih n j hj

theorem idxOf_some_of_contains : ∀ (l : List String) (n : String),
    l.contains n = true → ∃ i, idxOf l n = some i := by
  intro l
  induction l with
  | nil => intro n h; simp at h
  | cons c cs ih =>
    intro n h
    by_cases hc : c = n
    · exact ⟨0, by simp [idxOf, hc]⟩
    · have : cs.contains n = true := by
        simp only [List.contains_cons] at h
        rcases Bool.or_eq_true_iff.mp h with h1 | h2
        · exact absurd (show n = c by simpa using h1).symm hc
        · exact h2
      obtain ⟨j, hj⟩ := ih n this
      exact ⟨j + 1, by simp [idxOf, hc, hj]⟩

theorem idxOf_ne_of_names_ne {l : List String} {n m : String} {i j : Nat}
    (hn : idxOf l n = some i) (hm : idxOf l m = some j) (hnm : n ≠ m) : i ≠ j := by
  intro hij
  exact hnm ((idxOf_getD l n i hn).symm.trans (by rw [hij]; exact idxOf_getD l m j hm))

/-! ## Column-set preservation along the cleaning stages -/

theorem columns_mapColCells (df : DataFrame) (n : String) (f : Cell → Cell) :
    (mapColCells df n f).columns = df.columns := by
  unfold mapColCells
  cases colIdx df n <;> rfl

theorem columns_filterRowsByCol (df : DataFrame) (n : String) (p : Cell → Bool) :
    (filterRowsByCol df n p).columns = df.columns := by
  unfold filterRowsByCol
  cases colIdx df n <;> rfl

theorem columns_cleanCountryCol (df : DataFrame) :
    (cleanCountryCol df).columns = df.columns := by
  unfold cleanCountryCol
  rw [columns_filterRowsByCol, columns_filterRowsByCol, columns_mapColCells]

theorem columns_cleanYearCol (df : DataFrame) :
    (cleanYearCol df).columns = df.columns := by
  unfold cleanYearCol
  by_cases h : yearColIsInt df = true
  · simp [h]
  · simp [h, columns_filterRowsByCol, columns_mapColCells]

theorem columns_cleanEmissionsCol (df : DataFrame) :
    (cleanEmissionsCol df).columns = df.columns := by
  unfold cleanEmissionsCol
  rw [columns_filterRowsByCol, columns_filterRowsByCol, columns_mapColCells]

theorem columns_dropMissingRequired (df : DataFrame) :
    (dropMissingRequired df).columns = df.columns := by
  unfold dropMissingRequired
  split <;> rfl

theorem columns_sortValues (df : DataFrame) :
    (sortValues df).columns = df.columns := by
  unfold sortValues
  cases colIdx df "Country" <;> cases colIdx df "Year" <;> rfl

theorem cleanData_eq_stages (df0 : DataFrame) :
    cleanData df0 =
      sortValues (dropMissingRequired
        ((fun d => if d.columns.contains "Emissions" then cleanEmissionsCol d else d)
          ((fun d => if d.columns.contains "Year" then cleanYearCol d else d)
            ((fun d => if d.columns.contains "Country" then cleanCountryCol d else d)
              (mappedFrame df0))))) := rfl

theorem columns_countryStage (d : DataFrame) :
    ((fun d : DataFrame => if d.columns.contains "Country" then cleanCountryCol d else d) d).columns
      = d.columns := by
  show (if d.columns.contains "Country" = true then cleanCountryCol d else d).columns = d.columns
  split
  · exact columns_cleanCountryCol d
  · rfl

theorem columns_yearStage (d : DataFrame) :
    ((fun d : DataFrame => if d.columns.contains "Year" then cleanYearCol d else d) d).columns
      = d.columns := by
  show (if d.columns.contains "Year" = true then cleanYearCol d else d).columns = d.columns
  split
  · exact columns_cleanYearCol d
  · rfl

theorem columns_emissionsStage (d : DataFrame) :
    ((fun d : DataFrame => if d.columns.contains "Emissions" then cleanEmissionsCol d else d) d).columns
      = d.columns := by
  show (if d.columns.contains "Emissions" = true then cleanEmissionsCol d else d).columns = d.columns
  split
  · exact columns_cleanEmissionsCol d
  · rfl

/-- The columns of the cleaned frame are exactly those fixed after the
mapping stage. -/
theorem columns_cleanData (df0 : DataFrame) :
    (cleanData df0).columns = (mappedFrame df0).columns := by
  rw [cleanData_eq_stages, columns_sortValues, columns_dropMissingRequired,
    columns_emissionsStage, columns_yearStage, columns_countryStage]

/-! ## Claim theorems -/

set_option maxRecDepth 16000

/-- C2 (amended): if, after layout transformation and column mapping, any of
the three canonical columns Country, Year, Emissions is absent from the
table — and no canonical label is duplicated by the mapping, so the field
cleaners cannot abort on pandas' duplicate-label selection (see
`countryCleanRaises` / `emissionsCleanRaises` and the counterexample) — the
pipeline fails with a `SchemaError` carrying both the list of missing
canonical fields and the list of columns actually present. -/
theorem claim_C2_schema_error (df : DataFrame)
    (hnodup : ∀ c ∈ requiredColumns,
      (mappedFrame (handleOecdStructure df)).columns.count c ≤ 1)
    (h : requiredColumns.filter
      (fun c => !((cleanData (handleOecdStructure df)).columns.contains c)) ≠ []) :
    loadAndCleanData df = Except.error (ValidationError.schemaError
      (requiredColumns.filter
        (fun c => !((cleanData (handleOecdStructure df)).columns.contains c)))
      (cleanData (handleOecdStructure df)).columns) := by
  have hne : (requiredColumns.filter
      (fun c => !((cleanData (handleOecdStructure df)).columns.contains c))).isEmpty = false := by
    cases hcase : requiredColumns.filter
        (fun c => !((cleanData (handleOecdStructure df)).columns.contains c)) with
    | nil => exact absurd hcase h
    | cons a l => rfl
  have hval : validateData (cleanData (handleOecdStructure df)) =
      Except.error (ValidationError.schemaError
        (requiredColumns.filter
          (fun c => !((cleanData (handleOecdStructure df)).columns.contains c)))
        (cleanData (handleOecdStructure df)).columns) := by
    unfold validateData
    simp only [hne, Bool.false_eq_true, if_false]
  unfold loadAndCleanData
  rw [hval]
  rfl

/-- C2 witness: a table missing any emissions-like column fails with the
schema error listing `missing = ["Emissions"]` and the available columns. -/
theorem claim_C2_schema_error_witness :
    loadAndCleanData scenarioNoEmissions = Except.error (ValidationError.schemaError
      ["Emissions"] ["Country", "Year", "Notes"]) := by
  have h := claim_C2_schema_error scenarioNoEmissions (by with_unfolding_all decide)
    (by with_unfolding_all decide)
  exact h

/-- C2 counterexample to the unamended claim: on `sampleDupValue` the mapped
columns are `Country, Emissions, Emissions` with `Year` absent, so the
claim's hypothesis holds; but the Emissions cleaner's duplicate-label raise
condition is met, so the program aborts with the generic processing
exception inside `_clean_data`, never reaching `_validate_data` — it does
not fail with the `SchemaError` carrying the missing and available lists. -/
theorem claim_C2_schema_error_counterexample :
    (mappedFrame (handleOecdStructure sampleDupValue)).columns
      = ["Country", "Emissions", "Emissions"]
    ∧ requiredColumns.filter
        (fun c => !((cleanData (handleOecdStructure sampleDupValue)).columns.contains c))
      = ["Year"]
    ∧ countryCleanRaises (mappedFrame (handleOecdStructure sampleDupValue)) = false
    ∧ emissionsCleanRaises (mappedFrame (handleOecdStructure sampleDupValue)) = true := by
  with_unfolding_all decide

/-- C3: if all three canonical columns are present but zero rows survive
cleaning, the pipeline fails with an `EmptyDatasetError` rather than
returning an empty canonical table. -/
theorem claim_C3_empty_dataset (df : DataFrame)
    (hcols : requiredColumns.all
      (fun c => (cleanData (handleOecdStructure df)).columns.contains c) = true)
    (hrows : (cleanData (handleOecdStructure df)).rows = []) :
    loadAndCleanData df = Except.error ValidationError.emptyDataset := by
  have hmiss : requiredColumns.filter
      (fun c => !((cleanData (handleOecdStructure df)).columns.contains c)) = [] := by
    rw [List.filter_eq_nil_iff]
    intro a ha
    have := (List.all_eq_true.mp hcols) a ha
    simpa using this
  have hval : validateData (cleanData (handleOecdStructure df)) =
      Except.error ValidationError.emptyDataset := by
    unfold validateData
    simp only [hmiss, List.isEmpty_nil, if_true, hrows, List.length_nil, if_pos rfl]
  unfold loadAndCleanData
  rw [hval]
  rfl

/-- C3 witness: a table whose only emissions value is negative loses all its
rows during cleaning and fails with the empty-dataset error. -/
theorem claim_C3_empty_dataset_witness :
    loadAndCleanData scenarioNegative = Except.error ValidationError.emptyDataset :=
  claim_C3_empty_dataset scenarioNegative (by with_unfolding_all decide)
    (by with_unfolding_all decide)

/-- C4 (amended): the classification-and-transformation stage never raises:
when no layout predicate matches the table passes through unmodified, and
when the agency-report parser produces no records it returns its input
unmodified. The claim's further part — every fatal error of the pipeline is
an error of the terminal validator — holds only on tables whose mapping
duplicates no canonical label: on duplicated labels the field cleaners
abort first (see `countryCleanRaises` and the counterexample). -/
theorem claim_C4_nonfatal_classification (df : DataFrame) :
    (isWideFormatWithYears df = false → oecdIndicatorCount df < 2 →
      handleOecdStructure df = df)
    ∧ (parseOecdRecs df = [] → parseOecdFormat df = df)
    ∧ (∀ e, (∀ c ∈ requiredColumns,
          (mappedFrame (handleOecdStructure df)).columns.count c ≤ 1) →
        loadAndCleanData df = Except.error e →
        validateData (cleanData (handleOecdStructure df)) = Except.error e) := by
  refine ⟨?_, ?_, ?_⟩
  · intro hw hi
    unfold handleOecdStructure
    rw [if_neg (by simp [hw]), if_neg (by omega)]
  · intro hr
    unfold parseOecdRecs at hr
    unfold parseOecdFormat
    cases hfind : findTimeRow df with
    | none => rfl
    | some t =>
      rw [hfind] at hr
      have hr2 : (List.drop (t + 2) df.rows).flatMap (rowRecords (timePeriodsOf df t)) = [] := hr
      simp only [hr2, List.isEmpty_nil, if_true]
  · intro e _ he
    unfold loadAndCleanData at he
    cases hv : validateData (cleanData (handleOecdStructure df)) with
    | ok u => rw [hv] at he; simp [Except.map] at he
    | error e2 =>
      rw [hv] at he
      simpa [Except.map] using he

/-- C4 witness: a one-column table matches no layout and passes through both
classifiers unchanged, and its pipeline failure is the validator's error. -/
theorem claim_C4_nonfatal_classification_witness :
    handleOecdStructure sampleUnmatched = sampleUnmatched
    ∧ parseOecdFormat sampleUnmatched = sampleUnmatched
    ∧ validateData (cleanData (handleOecdStructure sampleUnmatched)) =
        Except.error (ValidationError.schemaError ["Country", "Year", "Emissions"] ["A"]) :=
  ⟨(claim_C4_nonfatal_classification sampleUnmatched).1 (by decide) (by decide),
   (claim_C4_nonfatal_classification sampleUnmatched).2.1 (by decide),
   (claim_C4_nonfatal_classification sampleUnmatched).2.2
     (ValidationError.schemaError ["Country", "Year", "Emissions"] ["A"])
     (by with_unfolding_all decide)
     (by with_unfolding_all decide)⟩

/-- C4 counterexample to the unamended claim: `sampleDupCountry`'s headers
`Region` and `LOCATION` are both country synonyms, so mapping duplicates the
label `Country`; the Country cleaner's duplicate-label raise condition is
met, so the program raises `AttributeError` inside `_clean_data` — a fatal
error that does not come from the terminal validator. -/
theorem claim_C4_nonfatal_classification_counterexample :
    (mappedFrame (handleOecdStructure sampleDupCountry)).columns
      = ["Country", "Country", "Year", "Emissions"]
    ∧ countryCleanRaises (mappedFrame (handleOecdStructure sampleDupCountry)) = true := by
  with_unfolding_all decide

theorem length_flatMap_const {α β : Type} (l : List α) (f : α → List β) (c : Nat)
    (h : ∀ a ∈ l, (f a).length = c) : (l.flatMap f).length = l.length * c := by
  induction l with
  | nil => simp
  | cons a t ih =>
    simp only [List.flatMap_cons, List.length_append, List.length_cons]
    rw [h a (by simp), ih (fun b hb => h b (by simp [hb]))]
    ring

theorem length_filter_map_filterMap_le {A B C : Type} (M : List A) (f1 : A → Option B)
    (f2 : B → C) (p : C → Bool) : (((M.filterMap f1).map f2).filter p).length ≤ M.length :=
  calc (((M.filterMap f1).map f2).filter p).length
      ≤ ((M.filterMap f1).map f2).length := List.length_filter_le _ _
    _ = (M.filterMap f1).length := List.length_map _ _
    _ ≤ M.length := List.length_filterMap_le _ _

/-- C1: for every wide-format input (at least 3 columns, at least 2 year
headers in [2000, 2030] among the non-first columns) the wide transformer
emits at most `N × K` records; every record is a (country, year, emissions)
triple whose year is one of the header years and whose country is the
trimmed text of one of the first-column labels, not `"nan"` and not empty,
with numeric emissions (non-coercible cells are dropped, not zero-filled).
On the spec's Scenario A table the output is exactly the three records
(USA, 2020, 10), (USA, 2021, 20), (France, 2021, 5). -/
theorem claim_C1_wide_transformer :
    (∀ df : DataFrame, isWideFormatWithYears df = true →
      (transformWideToLong df).rows.length ≤ df.rows.length * (yearHeaderCols df).length
      ∧ ∀ r ∈ (transformWideToLong df).rows, ∃ (s : String) (y : Int) (q : ℚ),
          r = [Cell.str s, Cell.num (y : ℚ), Cell.num q]
          ∧ (∃ j, (j, y) ∈ yearHeaderCols df)
          ∧ s ∈ df.rows.map (fun row => pyStrip (cellToString (row.headD Cell.empty)))
          ∧ s ≠ "nan" ∧ s ≠ "")
    ∧ (transformWideToLong scenarioWide).rows =
        [[Cell.str "USA", Cell.num 2020, Cell.num 10],
         [Cell.str "USA", Cell.num 2021, Cell.num 20],
         [Cell.str "France", Cell.num 2021, Cell.num 5]] := by
  constructor
  · intro df hw
    have h2 : 2 ≤ (yearHeaderCols df).length := by
      have := (Bool.and_eq_true _ _).mp hw
      exact of_decide_eq_true this.2
    have hne : (yearHeaderCols df).isEmpty = false := by
      cases hy : yearHeaderCols df with
      | nil => rw [hy] at h2; simp at h2
      | cons a t => rfl
    have hM : ((yearHeaderCols df).flatMap fun jy =>
        df.rows.map fun r => (r.headD Cell.empty, jy.2, cellAt r jy.1)).length
          = (yearHeaderCols df).length * df.rows.length :=
      length_flatMap_const _ _ _ (fun a _ => List.length_map _ _)
    unfold transformWideToLong
    simp only [hne, Bool.false_eq_true, if_false]
    constructor
    · rw [List.length_map]
      exact le_trans (length_filter_map_filterMap_le _ _ _ _) (by rw [hM, Nat.mul_comm])
    · intro r hr
      rw [List.mem_map] at hr
      obtain ⟨t, htmem, hrr⟩ := hr
      rw [List.mem_filter] at htmem
      obtain ⟨htmem, hcond⟩ := htmem
      rw [List.mem_map] at htmem
      obtain ⟨t0, ht0mem, ht0⟩ := htmem
      rw [List.mem_filterMap] at ht0mem
      obtain ⟨t1, ht1mem, ht1⟩ := ht0mem
      rw [List.mem_flatMap] at ht1mem
      obtain ⟨jy, hjy, ht1m⟩ := ht1mem
      rw [List.mem_map] at ht1m
      obtain ⟨row, hrow, ht1r⟩ := ht1m
      obtain ⟨q, hq, ht0e⟩ := Option.map_eq_some'.mp ht1
      subst hrr
      subst ht0
      subst ht0e
      subst ht1r
      have hnan : pyStrip (cellToString (row.headD Cell.empty)) ≠ "nan" := by
        rcases (Bool.and_eq_true _ _).mp hcond with ⟨h1, _⟩
        simpa using h1
      have hemp : pyStrip (cellToString (row.headD Cell.empty)) ≠ "" := by
        rcases (Bool.and_eq_true _ _).mp hcond with ⟨_, h2c⟩
        simpa using h2c
      refine ⟨_, _, _, rfl, ⟨jy.1, by simpa using hjy⟩,
        List.mem_map.mpr ⟨row, hrow, rfl⟩, hnan, hemp⟩
  · with_unfolding_all decide

/-- C1 witness: Scenario A's table is classified wide and satisfies the
record bound. -/
theorem claim_C1_wide_transformer_witness :
    isWideFormatWithYears scenarioWide = true
    ∧ (transformWideToLong scenarioWide).rows.length ≤
        scenarioWide.rows.length * (yearHeaderCols scenarioWide).length :=
  ⟨by decide, (claim_C1_wide_transformer.1 scenarioWide (by decide)).1⟩

/-- C8: a long-format table headed `Reference area, TIME_PERIOD, OBS_VALUE`
is renamed to `Country, Year, Emissions` by case-insensitive exact synonym
match; each column maps to at most one canonical field with the first
matching rule winning (exact country, then exact year, then exact
emissions, then substring emissions); and the Year cleaner parses the
`TIME_PERIOD` value `"2019-M03"` to the integer year 2019. -/
theorem claim_C8_column_mapping :
    (∀ rows : List (List Cell),
      mapColumns ⟨["Reference area", "TIME_PERIOD", "OBS_VALUE"], rows⟩
        = ⟨["Country", "Year", "Emissions"], rows⟩)
    ∧ parseTimePeriodCell (Cell.str "2019-M03") = some 2019
    ∧ (∀ col : String,
        (exactCountryMatch (pyStrip col) = true → canonicalNameFor col = some "Country")
        ∧ (exactCountryMatch (pyStrip col) = false → exactYearMatch (pyStrip col) = true →
            canonicalNameFor col = some "Year")
        ∧ (exactCountryMatch (pyStrip col) = false → exactYearMatch (pyStrip col) = false →
            exactEmissionsMatch (pyStrip col) = true →
            canonicalNameFor col = some "Emissions")
        ∧ (exactCountryMatch (pyStrip col) = false → exactYearMatch (pyStrip col) = false →
            exactEmissionsMatch (pyStrip col) = false →
            substringEmissionsMatch (pyStrip col) = true →
            canonicalNameFor col = some "Emissions")) := by
  refine ⟨?_, by decide, ?_⟩
  · intro rows
    show DataFrame.mk (["Reference area", "TIME_PERIOD", "OBS_VALUE"].map
      (fun c => (canonicalNameFor c).getD c)) rows = _
    exact congrArg (fun cs => DataFrame.mk cs rows) (by decide)
  · intro col
    refine ⟨fun h1 => ?_, fun h1 h2 => ?_, fun h1 h2 h3 => ?_, fun h1 h2 h3 h4 => ?_⟩ <;>
      simp [canonicalNameFor, h1] <;> simp [*]

/-- C8 witness: the concrete Scenario B headers and time-period value. -/
theorem claim_C8_column_mapping_witness :
    mapColumns scenarioLong = ⟨["Country", "Year", "Emissions"], scenarioLong.rows⟩
    ∧ parseTimePeriodCell (Cell.str "2019-M03") = some 2019
    ∧ canonicalNameFor "Reference area" = some "Country" :=
  ⟨claim_C8_column_mapping.1 scenarioLong.rows,
   claim_C8_column_mapping.2.1,
   (claim_C8_column_mapping.2.2 "Reference area").1 (by decide)⟩

theorem trend_direction_spec (p : ℚ) :
    ((if 0 < p then "Increasing" else if p < 0 then "Decreasing" else "Stable") = "Stable"
      ↔ p = 0)
    ∧ (0 < p →
        (if 0 < p then "Increasing" else if p < 0 then "Decreasing" else "Stable")
          = "Increasing")
    ∧ (p < 0 →
        (if 0 < p then "Increasing" else if p < 0 then "Decreasing" else "Stable")
          = "Decreasing") := by
  by_cases h1 : 0 < p
  · rw [if_pos h1]
    refine ⟨⟨fun h => absurd h (by decide), fun h => absurd (h ▸ h1) (lt_irrefl 0)⟩,
      fun _ => rfl, fun h2 => absurd h2 (by linarith)⟩
  · rw [if_neg h1]
    by_cases h2 : p < 0
    · rw [if_pos h2]
      refine ⟨⟨fun h => absurd h (by decide), fun h => absurd (h ▸ h2) (lt_irrefl 0)⟩,
        fun h3 => absurd h3 h1, fun _ => rfl⟩
    · rw [if_neg h2]
      have h0 : p = 0 := le_antisymm (not_lt.mp h1) (not_lt.mp h2)
      exact ⟨⟨fun _ => h0, fun _ => rfl⟩, fun h3 => absurd h3 h1, fun h3 => absurd h3 h2⟩

/-- C9: in every row of the trends table, the direction label is `"Stable"`
iff the reported percentage change is exactly zero, `"Increasing"` when it
is positive and `"Decreasing"` when it is negative. -/
theorem claim_C9_trend_direction (df : DataFrame) (t : TrendRow)
    (ht : t ∈ calculateTrends df) :
    (t.direction = "Stable" ↔ t.trendPct = 0)
    ∧ (0 < t.trendPct → t.direction = "Increasing")
    ∧ (t.trendPct < 0 → t.direction = "Decreasing") := by
  unfold calculateTrends at ht
  by_cases hall : requiredColumns.all (fun c => df.columns.contains c) = true
  · rw [if_pos hall, List.mem_filterMap] at ht
    obtain ⟨c, hc, hsome⟩ := ht
    unfold trendRowFor at hsome
    split at hsome
    · rw [Option.some.injEq] at hsome
      subst hsome
      exact trend_direction_spec _
    · simp at hsome
  · rw [if_neg hall] at ht
    simp at ht

/-- C9 witness: the trends of `sampleUnsorted` contain one concrete row and
it satisfies the three direction properties. -/
theorem claim_C9_trend_direction_witness :
    (sampleTrendRow.direction = "Stable" ↔ sampleTrendRow.trendPct = 0)
    ∧ (0 < sampleTrendRow.trendPct → sampleTrendRow.direction = "Increasing")
    ∧ (sampleTrendRow.trendPct < 0 → sampleTrendRow.direction = "Decreasing") :=
  claim_C9_trend_direction sampleUnsorted sampleTrendRow (by with_unfolding_all decide)

theorem mem_uniqueFirstAux : ∀ (l seen : List Cell) (a : Cell),
    a ∈ uniqueFirstAux seen l ↔ a ∈ l ∧ ¬ a ∈ seen := by
  intro l
  induction l with
  | nil => intro seen a; simp [uniqueFirstAux]
  | cons b t ih =>
    intro seen a
    by_cases hb : seen.contains b = true
    · rw [uniqueFirstAux, if_pos hb, ih]
      constructor
      · rintro ⟨h1, h2⟩
        exact ⟨List.mem_cons_of_mem _ h1, h2⟩
      · rintro ⟨h1, h2⟩
        rcases List.mem_cons.mp h1 with rfl | h1
        · exact absurd (by simpa using hb) h2
        · exact ⟨h1, h2⟩
    · rw [uniqueFirstAux, if_neg hb, List.mem_cons, ih]
      constructor
      · rintro (rfl | ⟨h1, h2⟩)
        · exact ⟨List.mem_cons_self _ _, fun hmem => hb (by simpa using hmem)⟩
        · exact ⟨List.mem_cons_of_mem _ h1, fun hm => h2 (List.mem_cons_of_mem _ hm)⟩
      · rintro ⟨h1, h2⟩
        by_cases hab : a = b
        · exact Or.inl hab
        · rcases List.mem_cons.mp h1 with rfl | h1
          · exact absurd rfl hab
          · refine Or.inr ⟨h1, fun hm => ?_⟩
            rcases List.mem_cons.mp hm with h | h
            · exact hab h
            · exact h2 h

theorem mem_uniqueFirst (l : List Cell) (a : Cell) : a ∈ uniqueFirst l ↔ a ∈ l := by
  rw [uniqueFirst, mem_uniqueFirstAux]
  simp

/-- C10: the trends table contains a row for a country value iff the input
table has at least two records carrying that country value; countries with
a single observation are omitted. -/
theorem claim_C10_trend_row_iff (df : DataFrame) (c : Cell)
    (hcols : requiredColumns.all (fun col => df.columns.contains col) = true) :
    (∃ t ∈ calculateTrends df, t.country = c)
      ↔ 2 ≤ (df.rows.filter (fun r =>
          cellAt r ((colIdx df "Country").getD 0) == c)).length := by
  unfold calculateTrends
  rw [if_pos hcols]
  constructor
  · rintro ⟨t, ht, htc⟩
    rw [List.mem_filterMap] at ht
    obtain ⟨a, ha, hsome⟩ := ht
    unfold trendRowFor at hsome
    split at hsome
    case isTrue hlen =>
      rw [Option.some.injEq] at hsome
      subst hsome
      have hac : a = c := htc
      subst hac
      rw [countryRows, (List.perm_insertionSort _ _).length_eq] at hlen
      omega
    case isFalse => simp at hsome
  · intro h2
    have hpos : 0 < (df.rows.filter (fun r =>
        cellAt r ((colIdx df "Country").getD 0) == c)).length := by omega
    obtain ⟨r0, hr0⟩ := List.exists_mem_of_length_pos hpos
    rw [List.mem_filter] at hr0
    have hcm : c ∈ List.map (fun r => cellAt r ((colIdx df "Country").getD 0)) df.rows := by
      refine List.mem_map.mpr ⟨r0, hr0.1, ?_⟩
      simpa using hr0.2
    have huniq : c ∈ uniqueFirst (List.map (fun r =>
        cellAt r ((colIdx df "Country").getD 0)) df.rows) := (mem_uniqueFirst _ _).mpr hcm
    have hlen : 1 < (countryRows df ((colIdx df "Country").getD 0)
        ((colIdx df "Year").getD 0) c).length := by
      rw [countryRows, (List.perm_insertionSort _ _).length_eq]
      omega
    have hval : ∃ t, trendRowFor df ((colIdx df "Country").getD 0)
        ((colIdx df "Year").getD 0) ((colIdx df "Emissions").getD 0) c = some t
        ∧ t.country = c := by
      unfold trendRowFor
      rw [if_pos hlen]
      exact ⟨_, rfl, rfl⟩
    obtain ⟨t, hsome, hct⟩ := hval
    exact ⟨t, List.mem_filterMap.mpr ⟨c, huniq, hsome⟩, hct⟩

/-- C10 witness: country "A" of `sampleUnsorted` has two records and a
trend row; the claim instance evaluates on that concrete table. -/
theorem claim_C10_trend_row_iff_witness :
    (∃ t ∈ calculateTrends sampleUnsorted, t.country = Cell.str "A")
      ↔ 2 ≤ (sampleUnsorted.rows.filter (fun r =>
          cellAt r ((colIdx sampleUnsorted "Country").getD 0) == Cell.str "A")).length :=
  claim_C10_trend_row_iff sampleUnsorted (Cell.str "A") (by decide)

/-! ## Membership and rectangularity lemmas for the cleaning stages -/

theorem colIdx_eq_of_columns_eq {d1 d2 : DataFrame} (h : d1.columns = d2.columns)
    (n : String) : colIdx d1 n = colIdx d2 n := by
  unfold colIdx
  rw [h]

theorem contains_of_idxOf_some {l : List String} {n : String} {i : Nat}
    (h : idxOf l n = some i) : l.contains n = true := by
  have hlt := idxOf_lt_length l n i h
  have hget := idxOf_getD l n i h
  have : n ∈ l := by
    rw [← hget]
    rw [List.getD_eq_getElem l "" hlt]
    exact List.getElem_mem hlt
  simpa using this

theorem mem_rows_mapColCells {df : DataFrame} {n : String} {f : Cell → Cell} {i : Nat}
    (h : colIdx df n = some i) {r : List Cell} :
    r ∈ (mapColCells df n f).rows ↔ ∃ r0 ∈ df.rows, r = mapAt i f r0 := by
  unfold mapColCells
  rw [h]
  simp only [List.mem_map]
  constructor
  · rintro ⟨r0, hr0, rfl⟩; exact ⟨r0, hr0, rfl⟩
  · rintro ⟨r0, hr0, rfl⟩; exact ⟨r0, hr0, rfl⟩

theorem mem_rows_filterRowsByCol {df : DataFrame} {n : String} {p : Cell → Bool} {i : Nat}
    (h : colIdx df n = some i) {r : List Cell} :
    r ∈ (filterRowsByCol df n p).rows ↔ r ∈ df.rows ∧ p (cellAt r i) = true := by
  unfold filterRowsByCol
  rw [h]
  exact List.mem_filter

theorem rows_filterRowsByCol_subset (df : DataFrame) (n : String) (p : Cell → Bool) :
    ∀ r ∈ (filterRowsByCol df n p).rows, r ∈ df.rows := by
  unfold filterRowsByCol
  cases colIdx df n with
  | none => exact fun r hr => hr
  | some i => exact fun r hr => (List.mem_filter.mp hr).1

theorem rows_dropMissingRequired_subset (df : DataFrame) :
    ∀ r ∈ (dropMissingRequired df).rows, r ∈ df.rows := by
  unfold dropMissingRequired
  split
  · exact fun r hr => (List.mem_filter.mp hr).1
  · exact fun r hr => hr

theorem mem_rows_sortValues {df : DataFrame} {r : List Cell} :
    r ∈ (sortValues df).rows ↔ r ∈ df.rows := by
  unfold sortValues
  cases colIdx df "Country" <;> cases colIdx df "Year"
  · exact Iff.rfl
  all_goals exact (List.perm_insertionSort _ _).mem_iff

theorem rect_dropAllNaCols (df : DataFrame) : Rect (dropAllNaCols df) := by
  intro r hr
  unfold dropAllNaCols at hr ⊢
  obtain ⟨r0, _, rfl⟩ := List.mem_map.mp hr
  simp

theorem rect_mapColumns {df : DataFrame} (h : Rect df) : Rect (mapColumns df) := by
  intro r hr
  unfold mapColumns at hr ⊢
  simpa using h r hr

theorem rect_mappedFrame (df0 : DataFrame) : Rect (mappedFrame df0) := by
  have h : mappedFrame df0 =
      if (requiredColumns.all fun c =>
          (dropAllNaCols (dropAllNaRows df0)).columns.contains c) = true
      then dropAllNaCols (dropAllNaRows df0)
      else mapColumns (dropAllNaCols (dropAllNaRows df0)) := rfl
  rw [h]
  split
  · exact rect_dropAllNaCols _
  · exact rect_mapColumns (rect_dropAllNaCols _)

theorem rect_mapColCells {df : DataFrame} {n : String} {f : Cell → Cell} (h : Rect df) :
    Rect (mapColCells df n f) := by
  unfold mapColCells
  cases colIdx df n with
  | none => exact h
  | some i =>
    intro r hr
    obtain ⟨r0, hr0, rfl⟩ := List.mem_map.mp hr
    simpa [mapAt, length_setAt] using h r0 hr0

theorem rect_filterRowsByCol {df : DataFrame} {n : String} {p : Cell → Bool} (h : Rect df) :
    Rect (filterRowsByCol df n p) := by
  intro r hr
  rw [show (filterRowsByCol df n p).columns = df.columns from columns_filterRowsByCol df n p]
  exact h r (rows_filterRowsByCol_subset df n p r hr)

theorem rect_cleanCountryCol {df : DataFrame} (h : Rect df) : Rect (cleanCountryCol df) := by
  unfold cleanCountryCol
  exact rect_filterRowsByCol (rect_filterRowsByCol (rect_mapColCells h))

theorem rect_cleanYearCol {df : DataFrame} (h : Rect df) : Rect (cleanYearCol df) := by
  unfold cleanYearCol
  split
  · exact h
  · exact rect_filterRowsByCol (rect_mapColCells h)

theorem rect_cleanEmissionsCol {df : DataFrame} (h : Rect df) : Rect (cleanEmissionsCol df) := by
  unfold cleanEmissionsCol
  exact rect_filterRowsByCol (rect_filterRowsByCol (rect_mapColCells h))

theorem rect_dropMissingRequired {df : DataFrame} (h : Rect df) :
    Rect (dropMissingRequired df) := by
  intro r hr
  rw [show (dropMissingRequired df).columns = df.columns from columns_dropMissingRequired df]
  exact h r (rows_dropMissingRequired_subset df r hr)

theorem rect_sortValues {df : DataFrame} (h : Rect df) : Rect (sortValues df) := by
  intro r hr
  rw [show (sortValues df).columns = df.columns from columns_sortValues df]
  exact h r (mem_rows_sortValues.mp hr)

/-! ## Cell-property preservation along the cleaning stages -/

theorem cellProp_filterRowsByCol {i : Nat} {Q : Cell → Prop} {df : DataFrame}
    {n : String} {p : Cell → Bool} (h : CellProp i Q df) :
    CellProp i Q (filterRowsByCol df n p) :=
  fun r hr => h r (rows_filterRowsByCol_subset df n p r hr)

theorem cellProp_mapColCells_ne {i : Nat} {Q : Cell → Prop} {df : DataFrame}
    {n : String} {f : Cell → Cell} (hne : ∀ j, colIdx df n = some j → j ≠ i)
    (h : CellProp i Q df) : CellProp i Q (mapColCells df n f) := by
  unfold mapColCells
  cases hj : colIdx df n with
  | none => exact h
  | some j =>
    intro r hr
    obtain ⟨r0, hr0, rfl⟩ := List.mem_map.mp hr
    rw [show cellAt (mapAt j f r0) i = cellAt r0 i from
      cellAt_mapAt_ne f (fun he => hne j hj he.symm)]
    exact h r0 hr0

theorem cellProp_dropMissingRequired {i : Nat} {Q : Cell → Prop} {df : DataFrame}
    (h : CellProp i Q df) : CellProp i Q (dropMissingRequired df) :=
  fun r hr => h r (rows_dropMissingRequired_subset df r hr)

theorem cellProp_sortValues {i : Nat} {Q : Cell → Prop} {df : DataFrame}
    (h : CellProp i Q df) : CellProp i Q (sortValues df) :=
  fun r hr => h r (mem_rows_sortValues.mp hr)

theorem cellProp_cleanYearCol {i : Nat} {Q : Cell → Prop} {df : DataFrame}
    (hne : ∀ j, colIdx df "Year" = some j → j ≠ i) (h : CellProp i Q df) :
    CellProp i Q (cleanYearCol df) := by
  unfold cleanYearCol
  split
  · exact h
  · exact cellProp_filterRowsByCol (cellProp_mapColCells_ne hne h)

theorem cellProp_cleanEmissionsCol {i : Nat} {Q : Cell → Prop} {df : DataFrame}
    (hne : ∀ j, colIdx df "Emissions" = some j → j ≠ i) (h : CellProp i Q df) :
    CellProp i Q (cleanEmissionsCol df) := by
  unfold cleanEmissionsCol
  exact cellProp_filterRowsByCol (cellProp_filterRowsByCol (cellProp_mapColCells_ne hne h))

/-- The country cleaner leaves every surviving row with stripped text that
is neither `"nan"` nor empty. -/
theorem cleanCountryCol_establishes {df : DataFrame} {ci : Nat}
    (hci : colIdx df "Country" = some ci) (hrect : Rect df) :
    CellProp ci (fun c => ∃ s, c = Cell.str s ∧ s ≠ "nan" ∧ s ≠ "") (cleanCountryCol df) := by
  have hlt : ci < df.columns.length := idxOf_lt_length _ _ _ hci
  unfold cleanCountryCol
  intro r hr
  have hcols1 : (mapColCells df "Country"
      (fun c => Cell.str (pyStrip (cellToString c)))).columns = df.columns :=
    columns_mapColCells _ _ _
  have hci1 : colIdx (mapColCells df "Country"
      (fun c => Cell.str (pyStrip (cellToString c)))) "Country" = some ci := by
    rw [colIdx_eq_of_columns_eq hcols1]
    exact hci
  have hcols2 : (filterRowsByCol (mapColCells df "Country"
      (fun c => Cell.str (pyStrip (cellToString c)))) "Country"
      (fun c => !(c == Cell.str "nan"))).columns = df.columns := by
    rw [columns_filterRowsByCol, hcols1]
  have hci2 : colIdx (filterRowsByCol (mapColCells df "Country"
      (fun c => Cell.str (pyStrip (cellToString c)))) "Country"
      (fun c => !(c == Cell.str "nan"))) "Country" = some ci := by
    rw [colIdx_eq_of_columns_eq hcols2]
    exact hci
  rw [mem_rows_filterRowsByCol hci2] at hr
  obtain ⟨hr, hp2⟩ := hr
  rw [mem_rows_filterRowsByCol hci1] at hr
  obtain ⟨hr, hp1⟩ := hr
  rw [mem_rows_mapColCells hci] at hr
  obtain ⟨r0, hr0, rfl⟩ := hr
  have hlen0 : ci < r0.length := by rw [hrect r0 hr0]; exact hlt
  have hcell : cellAt (mapAt ci (fun c => Cell.str (pyStrip (cellToString c))) r0) ci
      = Cell.str (pyStrip (cellToString (cellAt r0 ci))) := cellAt_mapAt_self _ hlen0
  rw [hcell] at hp1 hp2 ⊢
  refine ⟨pyStrip (cellToString (cellAt r0 ci)), rfl, ?_, ?_⟩
  · intro he
    rw [he] at hp1
    simp at hp1
  · intro he
    rw [he] at hp2
    simp at hp2

/-- The emissions cleaner leaves every surviving row with a non-negative
numeric emissions cell. -/
theorem cleanEmissionsCol_establishes {df : DataFrame} {ei : Nat}
    (hei : colIdx df "Emissions" = some ei) (hrect : Rect df) :
    CellProp ei (fun c => ∃ q, c = Cell.num q ∧ 0 ≤ q) (cleanEmissionsCol df) := by
  have hlt : ei < df.columns.length := idxOf_lt_length _ _ _ hei
  unfold cleanEmissionsCol
  intro r hr
  have hcols1 : (mapColCells df "Emissions" (fun c =>
      match toNumeric c with
      | some q => Cell.num q
      | none => Cell.empty)).columns = df.columns := columns_mapColCells _ _ _
  have hci1 : colIdx (mapColCells df "Emissions" (fun c =>
      match toNumeric c with
      | some q => Cell.num q
      | none => Cell.empty)) "Emissions" = some ei := by
    rw [colIdx_eq_of_columns_eq hcols1]
    exact hei
  have hci2 : colIdx (filterRowsByCol (mapColCells df "Emissions" (fun c =>
      match toNumeric c with
      | some q => Cell.num q
      | none => Cell.empty)) "Emissions"
      (fun c => !(c == Cell.empty))) "Emissions" = some ei := by
    rw [colIdx_eq_of_columns_eq (columns_filterRowsByCol _ _ _)]
    exact hci1
  have hci3 : colIdx (filterRowsByCol (filterRowsByCol (mapColCells df "Emissions" (fun c =>
      match toNumeric c with
      | some q => Cell.num q
      | none => Cell.empty)) "Emissions"
      (fun c => !(c == Cell.empty))) "Emissions"
      (fun c =>
        match c with
        | .num q => decide (0 ≤ q)
        | _ => false)) "Emissions" = some ei := by
    rw [colIdx_eq_of_columns_eq (columns_filterRowsByCol _ _ _)]
    exact hci2
  rw [mem_rows_filterRowsByCol hci2] at hr
  obtain ⟨hr, hp3⟩ := hr
  rw [mem_rows_filterRowsByCol hci1] at hr
  obtain ⟨hr, hp2⟩ := hr
  rw [mem_rows_mapColCells hei] at hr
  obtain ⟨r0, hr0, rfl⟩ := hr
  have hlen0 : ei < r0.length := by rw [hrect r0 hr0]; exact hlt
  have hcell : cellAt (mapAt ei (fun c =>
      match toNumeric c with
      | some q => Cell.num q
      | none => Cell.empty) r0) ei
      = (match toNumeric (cellAt r0 ei) with
         | some q => Cell.num q
         | none => Cell.empty) := cellAt_mapAt_self _ hlen0
  rw [hcell] at hp3 ⊢
  cases hn : toNumeric (cellAt r0 ei) with
  | none => rw [hn] at hp3; simp at hp3
  | some q =>
    rw [hn] at hp3
    exact ⟨q, rfl, by simpa using hp3⟩

/-- A successful validation means every required column is present. -/
theorem validate_ok_contains {d : DataFrame} {u : Unit} (hv : validateData d = Except.ok u) :
    ∀ c ∈ requiredColumns, d.columns.contains c = true := by
  unfold validateData at hv
  by_cases hm : (requiredColumns.filter (fun c => !(d.columns.contains c))).isEmpty = true
  · intro c hc
    by_contra hnc
    have hmem : c ∈ requiredColumns.filter (fun c => !(d.columns.contains c)) :=
      List.mem_filter.mpr ⟨hc, by rw [Bool.not_eq_true] at hnc; rw [hnc]; rfl⟩
    rw [List.isEmpty_iff] at hm
    rw [hm] at hmem
    simp at hmem
  · rw [if_neg hm] at hv
    exact Except.noConfusion hv

/-- A successful pipeline run returns the cleaned frame and had a
successful validation. -/
theorem loadAndCleanData_ok {df out : DataFrame}
    (hok : loadAndCleanData df = Except.ok out) :
    out = cleanData (handleOecdStructure df)
    ∧ validateData (cleanData (handleOecdStructure df)) = Except.ok () := by
  unfold loadAndCleanData at hok
  cases hv : validateData (cleanData (handleOecdStructure df)) with
  | ok u =>
    rw [hv] at hok
    have h2 : cleanData (handleOecdStructure df) = out := by
      simpa [Except.map] using hok
    exact ⟨h2.symm, by cases u; rfl⟩
  | error e =>
    rw [hv] at hok
    simp [Except.map] at hok

/-- With all three canonical columns present after mapping, the cleaning
pass is the composition of the three field cleaners, the final drop and
the sort. -/
theorem cleanData_eq_of_contains (df0 : DataFrame)
    (hC : (mappedFrame df0).columns.contains "Country" = true)
    (hY : (mappedFrame df0).columns.contains "Year" = true)
    (hE : (mappedFrame df0).columns.contains "Emissions" = true) :
    cleanData df0 = sortValues (dropMissingRequired (cleanEmissionsCol (cleanYearCol
      (cleanCountryCol (mappedFrame df0))))) := by
  rw [cleanData_eq_stages]
  have h4 : (fun d : DataFrame => if d.columns.contains "Country" then cleanCountryCol d else d)
      (mappedFrame df0) = cleanCountryCol (mappedFrame df0) := by
    show (if (mappedFrame df0).columns.contains "Country" = true then _ else _) = _
    rw [if_pos hC]
  have h5 : (fun d : DataFrame => if d.columns.contains "Year" then cleanYearCol d else d)
      (cleanCountryCol (mappedFrame df0)) = cleanYearCol (cleanCountryCol (mappedFrame df0)) := by
    show (if (cleanCountryCol (mappedFrame df0)).columns.contains "Year" = true
      then _ else _) = _
    rw [if_pos (by rw [columns_cleanCountryCol]; exact hY)]
  have h6 : (fun d : DataFrame => if d.columns.contains "Emissions" then cleanEmissionsCol d else d)
      (cleanYearCol (cleanCountryCol (mappedFrame df0)))
      = cleanEmissionsCol (cleanYearCol (cleanCountryCol (mappedFrame df0))) := by
    show (if (cleanYearCol (cleanCountryCol (mappedFrame df0))).columns.contains "Emissions" = true
      then _ else _) = _
    rw [if_pos (by rw [columns_cleanYearCol, columns_cleanCountryCol]; exact hE)]
  rw [h4, h5, h6]

/-- C6: no record of a canonical table returned by the pipeline has an
emissions value strictly below zero, and no record has country text equal
to the literal `"nan"` or the empty string. -/
theorem claim_C6_rejection_invariant (df out : DataFrame) (ci ei : Nat)
    (hok : loadAndCleanData df = Except.ok out)
    (hci : colIdx out "Country" = some ci)
    (hei : colIdx out "Emissions" = some ei) :
    ∀ r ∈ out.rows,
      (∃ s, cellAt r ci = Cell.str s ∧ s ≠ "nan" ∧ s ≠ "")
      ∧ (∃ q, cellAt r ei = Cell.num q ∧ 0 ≤ q) := by
  obtain ⟨hout, hv⟩ := loadAndCleanData_ok hok
  rw [hout] at hci hei ⊢
  set A := mappedFrame (handleOecdStructure df) with hA
  have hcolsA : (cleanData (handleOecdStructure df)).columns = A.columns :=
    columns_cleanData _
  have hciA : colIdx A "Country" = some ci := by
    rw [← colIdx_eq_of_columns_eq hcolsA]
    exact hci
  have heiA : colIdx A "Emissions" = some ei := by
    rw [← colIdx_eq_of_columns_eq hcolsA]
    exact hei
  have hcontC : A.columns.contains "Country" = true := contains_of_idxOf_some hciA
  have hcontE : A.columns.contains "Emissions" = true := contains_of_idxOf_some heiA
  have hcontY : A.columns.contains "Year" = true := by
    have := validate_ok_contains hv "Year" (by simp [requiredColumns])
    rw [hcolsA] at this
    exact this
  have hstages := cleanData_eq_of_contains (handleOecdStructure df) hcontC hcontY hcontE
  have hrectA : Rect A := rect_mappedFrame _
  have hcountry : CellProp ci (fun c => ∃ s, c = Cell.str s ∧ s ≠ "nan" ∧ s ≠ "")
      (cleanCountryCol A) := cleanCountryCol_establishes hciA hrectA
  have hciCC : colIdx (cleanCountryCol A) "Country" = some ci := by
    rw [colIdx_eq_of_columns_eq (columns_cleanCountryCol A)]
    exact hciA
  have hCCne : ∀ j, colIdx (cleanCountryCol A) "Year" = some j → j ≠ ci := by
    intro j hj
    rw [colIdx_eq_of_columns_eq (columns_cleanCountryCol A)] at hj
    exact idxOf_ne_of_names_ne hj hciA (by decide)
  have hcountry2 : CellProp ci (fun c => ∃ s, c = Cell.str s ∧ s ≠ "nan" ∧ s ≠ "")
      (cleanYearCol (cleanCountryCol A)) := cellProp_cleanYearCol hCCne hcountry
  have hYCne : ∀ j, colIdx (cleanYearCol (cleanCountryCol A)) "Emissions" = some j → j ≠ ci := by
    intro j hj
    rw [colIdx_eq_of_columns_eq (columns_cleanYearCol _),
      colIdx_eq_of_columns_eq (columns_cleanCountryCol A)] at hj
    exact idxOf_ne_of_names_ne hj hciA (by decide)
  have hcountry3 : CellProp ci (fun c => ∃ s, c = Cell.str s ∧ s ≠ "nan" ∧ s ≠ "")
      (cleanEmissionsCol (cleanYearCol (cleanCountryCol A))) :=
    cellProp_cleanEmissionsCol hYCne hcountry2
  have heiYC : colIdx (cleanYearCol (cleanCountryCol A)) "Emissions" = some ei := by
    rw [colIdx_eq_of_columns_eq (columns_cleanYearCol _),
      colIdx_eq_of_columns_eq (columns_cleanCountryCol A)]
    exact heiA
  have hrectYC : Rect (cleanYearCol (cleanCountryCol A)) :=
    rect_cleanYearCol (rect_cleanCountryCol hrectA)
  have hemis : CellProp ei (fun c => ∃ q, c = Cell.num q ∧ 0 ≤ q)
      (cleanEmissionsCol (cleanYearCol (cleanCountryCol A))) :=
    cleanEmissionsCol_establishes heiYC hrectYC
  have hcountryF : CellProp ci (fun c => ∃ s, c = Cell.str s ∧ s ≠ "nan" ∧ s ≠ "")
      (cleanData (handleOecdStructure df)) := by
    rw [hstages]
    exact cellProp_sortValues (cellProp_dropMissingRequired hcountry3)
  have hemisF : CellProp ei (fun c => ∃ q, c = Cell.num q ∧ 0 ≤ q)
      (cleanData (handleOecdStructure df)) := by
    rw [hstages]
    exact cellProp_sortValues (cellProp_dropMissingRequired hemis)
  intro r hr
  exact ⟨hcountryF r hr, hemisF r hr⟩

/-- C6 witness: the concrete pipeline output for `sampleUnsorted` satisfies
the rejection invariant at its Country and Emissions columns. -/
theorem claim_C6_rejection_invariant_witness :
    (∃ s, cellAt [Cell.str "A", Cell.num 2019, Cell.num 3] 0 = Cell.str s ∧ s ≠ "nan" ∧ s ≠ "")
    ∧ (∃ q, cellAt [Cell.str "A", Cell.num 2019, Cell.num 3] 2 = Cell.num q ∧ 0 ≤ q) :=
  claim_C6_rejection_invariant sampleUnsorted sampleSortedOut 0 2
    (by with_unfolding_all decide) (by decide) (by decide)
    [Cell.str "A", Cell.num 2019, Cell.num 3] (by with_unfolding_all decide)

theorem sortValues_rows_CY {df : DataFrame} {ci yi : Nat}
    (hci : colIdx df "Country" = some ci) (hyi : colIdx df "Year" = some yi) :
    (sortValues df).rows = List.insertionSort (RowLeCY ci yi) df.rows := by
  unfold sortValues
  rw [hci, hyi]

set_option maxHeartbeats 2000000

/-- C5: in every canonical table returned by the pipeline, adjacent records
are ordered by country text (lexicographically by code point) and, for
equal countries, by year. -/
theorem claim_C5_sorting_invariant (df out : DataFrame) (ci yi : Nat)
    (hok : loadAndCleanData df = Except.ok out)
    (hci : colIdx out "Country" = some ci)
    (hyi : colIdx out "Year" = some yi) :
    List.Chain' (fun r1 r2 =>
      strLe (countryKeyAt ci r1) (countryKeyAt ci r2) = true
      ∧ (countryKeyAt ci r1 = countryKeyAt ci r2 →
          yearKeyAt yi r1 ≤ yearKeyAt yi r2)) out.rows := by
  obtain ⟨hout, hv⟩ := loadAndCleanData_ok hok
  have hcolsD : (cleanData (handleOecdStructure df)).columns = (dropMissingRequired
      ((fun d : DataFrame => if d.columns.contains "Emissions" then cleanEmissionsCol d else d)
        ((fun d : DataFrame => if d.columns.contains "Year" then cleanYearCol d else d)
          ((fun d : DataFrame => if d.columns.contains "Country" then cleanCountryCol d else d)
            (mappedFrame (handleOecdStructure df)))))).columns :=
    (congrArg DataFrame.columns (cleanData_eq_stages (handleOecdStructure df))).trans
      (columns_sortValues _)
  have hciD : colIdx (dropMissingRequired
      ((fun d : DataFrame => if d.columns.contains "Emissions" then cleanEmissionsCol d else d)
        ((fun d : DataFrame => if d.columns.contains "Year" then cleanYearCol d else d)
          ((fun d : DataFrame => if d.columns.contains "Country" then cleanCountryCol d else d)
            (mappedFrame (handleOecdStructure df)))))) "Country" = some ci :=
    (colIdx_eq_of_columns_eq hcolsD "Country").symm.trans
      ((colIdx_eq_of_columns_eq (congrArg DataFrame.columns hout) "Country").symm.trans hci)
  have hyiD : colIdx (dropMissingRequired
      ((fun d : DataFrame => if d.columns.contains "Emissions" then cleanEmissionsCol d else d)
        ((fun d : DataFrame => if d.columns.contains "Year" then cleanYearCol d else d)
          ((fun d : DataFrame => if d.columns.contains "Country" then cleanCountryCol d else d)
            (mappedFrame (handleOecdStructure df)))))) "Year" = some yi :=
    (colIdx_eq_of_columns_eq hcolsD "Year").symm.trans
      ((colIdx_eq_of_columns_eq (congrArg DataFrame.columns hout) "Year").symm.trans hyi)
  have hrows : out.rows = List.insertionSort (RowLeCY ci yi) (dropMissingRequired
      ((fun d : DataFrame => if d.columns.contains "Emissions" then cleanEmissionsCol d else d)
        ((fun d : DataFrame => if d.columns.contains "Year" then cleanYearCol d else d)
          ((fun d : DataFrame => if d.columns.contains "Country" then cleanCountryCol d else d)
            (mappedFrame (handleOecdStructure df)))))).rows :=
    (congrArg DataFrame.rows hout).trans
      ((congrArg DataFrame.rows (cleanData_eq_stages (handleOecdStructure df))).trans
        (sortValues_rows_CY hciD hyiD))
  have key : ∀ L : List (List Cell), List.Chain' (fun r1 r2 =>
      strLe (countryKeyAt ci r1) (countryKeyAt ci r2) = true
      ∧ (countryKeyAt ci r1 = countryKeyAt ci r2 →
          yearKeyAt yi r1 ≤ yearKeyAt yi r2))
      (List.insertionSort (RowLeCY ci yi) L) := by
    intro L
    have hsorted : List.Sorted (RowLeCY ci yi) (List.insertionSort (RowLeCY ci yi) L) :=
      List.sorted_insertionSort (RowLeCY ci yi) L
    refine List.Chain'.imp ?_ (List.Pairwise.chain' hsorted)
    intro r1 r2 h
    rcases h with hlt | ⟨heq, hle⟩
    · refine ⟨strLe_of_strLt hlt, fun heq => ?_⟩
      rw [heq] at hlt
      rw [show strLt (countryKeyAt ci r2) (countryKeyAt ci r2)
        = lexLt (countryKeyAt ci r2).data (countryKeyAt ci r2).data from rfl,
        lexLt_irrefl] at hlt
      exact Bool.noConfusion hlt
    · exact ⟨by rw [heq]; exact strLe_refl _, fun _ => hle⟩
  exact Eq.mpr (congrArg (fun l => List.Chain' (fun r1 r2 =>
      strLe (countryKeyAt ci r1) (countryKeyAt ci r2) = true
      ∧ (countryKeyAt ci r1 = countryKeyAt ci r2 →
          yearKeyAt yi r1 ≤ yearKeyAt yi r2)) l) hrows) (key _)

/-- C5 witness: the pipeline output for `sampleUnsorted` is sorted by
country then year. -/
theorem claim_C5_sorting_invariant_witness :
    List.Chain' (fun r1 r2 =>
      strLe (countryKeyAt 0 r1) (countryKeyAt 0 r2) = true
      ∧ (countryKeyAt 0 r1 = countryKeyAt 0 r2 →
          yearKeyAt 1 r1 ≤ yearKeyAt 1 r2)) sampleSortedOut.rows :=
  claim_C5_sorting_invariant sampleUnsorted sampleSortedOut 0 1
    (by with_unfolding_all decide) (by decide) (by decide)

/-! ## Round trip between decimal rendering and time-period parsing -/

theorem natToDigitsAux_lt : ∀ (fuel n : Nat), ∀ d ∈ natToDigitsAux fuel n, d < 10 := by
  intro fuel
  induction fuel with
  | zero => intro n d hd; simp [natToDigitsAux] at hd
  | succ f ih =>
    intro n d hd
    cases n with
    | zero => simp [natToDigitsAux] at hd
    | succ m =>
      rw [natToDigitsAux] at hd
      rcases List.mem_cons.mp hd with rfl | hd
      · exact Nat.mod_lt _ (by omega)
      · exact ih _ d hd

theorem lsbVal_natToDigitsAux : ∀ (fuel n : Nat), n ≤ fuel →
    lsbVal (natToDigitsAux fuel n) = n := by
  intro fuel
  induction fuel with
  | zero => intro n h; interval_cases n; rfl
  | succ f ih =>
    intro n h
    cases n with
    | zero => rfl
    | succ m =>
      rw [natToDigitsAux, lsbVal]
      have hle : (m + 1) / 10 ≤ f := by
        have := Nat.div_lt_self (Nat.succ_pos m) (by omega : 1 < 10)
        omega
      rw [ih _ hle]
      omega

theorem digitChar_isDigit {d : Nat} (h : d < 10) : (digitChar d).isDigit = true := by
  interval_cases d <;> decide

theorem charVal_digitChar {d : Nat} (h : d < 10) : charVal (digitChar d) = d := by
  interval_cases d <;> decide

theorem digitChar_not_ws {d : Nat} (h : d < 10) : (digitChar d).isWhitespace = false := by
  interval_cases d <;> decide

theorem digitChar_ne_dash {d : Nat} (h : d < 10) : digitChar d ≠ '-' := by
  interval_cases d <;> decide

theorem toUpper_digitChar {d : Nat} (h : d < 10) : (digitChar d).toUpper = digitChar d := by
  interval_cases d <;> decide

theorem digitChar_ne_M {d : Nat} (h : d < 10) : digitChar d ≠ 'M' := by
  interval_cases d <;> decide

theorem foldl_val_congr : ∀ (l : List Nat) (acc : Nat), (∀ d ∈ l, d < 10) →
    List.foldl (fun a d => a * 10 + charVal (digitChar d)) acc l
      = List.foldl (fun a d => a * 10 + d) acc l := by
  intro l
  induction l with
  | nil => intro acc _; rfl
  | cons d ds ih =>
    intro acc h
    simp only [List.foldl_cons]
    rw [charVal_digitChar (h d (by simp))]
    exact ih _ (fun x hx => h x (by simp [hx]))

theorem foldl_rev_eq_lsbVal : ∀ (l : List Nat) (acc : Nat),
    List.foldl (fun a d => a * 10 + d) acc l.reverse = acc * 10 ^ l.length + lsbVal l := by
  intro l
  induction l with
  | nil => intro acc; simp [lsbVal]
  | cons d ds ih =>
    intro acc
    rw [List.reverse_cons, List.foldl_append, ih acc]
    simp only [List.foldl_cons, List.foldl_nil, lsbVal, List.length_cons]
    ring

theorem natOfDigitChars_map_digitChar {l : List Nat} (h : ∀ d ∈ l, d < 10) :
    natOfDigitChars ((l.map digitChar).reverse) = lsbVal l := by
  unfold natOfDigitChars
  rw [← List.map_reverse, List.foldl_map]
  rw [foldl_val_congr l.reverse 0 (fun d hd => h d (List.mem_reverse.mp hd))]
  have := foldl_rev_eq_lsbVal l 0
  simpa using this

theorem natStr_data {n : Nat} (h : 0 < n) :
    (natStr n).data = ((natToDigitsAux n n).map digitChar).reverse := by
  unfold natStr
  rw [if_neg (by omega)]

theorem natStr_digit_chars {n : Nat} (h : 0 < n) :
    ∀ c ∈ (natStr n).data, ∃ d, d < 10 ∧ c = digitChar d := by
  rw [natStr_data h]
  intro c hc
  rw [List.mem_reverse, List.mem_map] at hc
  obtain ⟨d, hd, rfl⟩ := hc
  exact ⟨d, natToDigitsAux_lt _ _ d hd, rfl⟩

theorem natStr_ne_nil {n : Nat} (h : 0 < n) : (natStr n).data ≠ [] := by
  rw [natStr_data h]
  cases n with
  | zero => omega
  | succ m => simp [natToDigitsAux]

theorem natOfDigitChars_natStr {n : Nat} (h : 0 < n) :
    natOfDigitChars (natStr n).data = n := by
  rw [natStr_data h, natOfDigitChars_map_digitChar (natToDigitsAux_lt n n)]
  exact lsbVal_natToDigitsAux n n (le_refl n)

theorem dropWhile_eq_self_of_head {p : Char → Bool} :
    ∀ (l : List Char), (∀ c ∈ l, p c = false) → l.dropWhile p = l := by
  intro l h
  cases l with
  | nil => rfl
  | cons c cs => rw [List.dropWhile_cons, h c (by simp)]; rfl

theorem stripChars_eq_self {l : List Char} (h : ∀ c ∈ l, c.isWhitespace = false) :
    stripChars l = l := by
  unfold stripChars
  rw [dropWhile_eq_self_of_head l h,
    dropWhile_eq_self_of_head l.reverse (fun c hc => h c (List.mem_reverse.mp hc)),
    List.reverse_reverse]

theorem contains_eq_false_of_ne {l : List Char} {a : Char} (h : ∀ c ∈ l, c ≠ a) :
    l.contains a = false := by
  induction l with
  | nil => rfl
  | cons c cs ih =>
    rw [List.contains_cons]
    rw [ih (fun x hx => h x (by simp [hx]))]
    have := h c (by simp)
    simp [beq_eq_false_iff_ne, this]
    exact fun he => this he.symm

theorem pyStrip_natStr {n : Nat} (h : 0 < n) : pyStrip (natStr n) = natStr n := by
  unfold pyStrip
  rw [show (natStr n).data = (natStr n).data from rfl,
    stripChars_eq_self (fun c hc => by
      obtain ⟨d, hd, rfl⟩ := natStr_digit_chars h c hc
      exact digitChar_not_ws hd)]

theorem parseTimePeriodStr_natStr {n : Nat} (h : 0 < n) :
    parseTimePeriodStr (natStr n) = some n := by
  have hdash : strContainsChar (natStr n) '-' = false := by
    unfold strContainsChar
    exact contains_eq_false_of_ne (fun c hc => by
      obtain ⟨d, hd, rfl⟩ := natStr_digit_chars h c hc
      exact digitChar_ne_dash hd)
  have hM : strContainsChar (pyUpper (natStr n)) 'M' = false := by
    unfold strContainsChar pyUpper
    refine contains_eq_false_of_ne (fun c hc => ?_)
    rw [show (String.mk ((natStr n).data.map Char.toUpper)).data
      = (natStr n).data.map Char.toUpper from rfl, List.mem_map] at hc
    obtain ⟨c0, hc0, rfl⟩ := hc
    obtain ⟨d, hd, rfl⟩ := natStr_digit_chars h c0 hc0
    rw [toUpper_digitChar hd]
    exact digitChar_ne_M hd
  unfold parseTimePeriodStr
  rw [if_neg (by rw [hdash]; exact Bool.false_ne_true),
    if_neg (by rw [hM]; exact Bool.false_ne_true)]
  have hdig : digitsOnly (natStr n).data = (natStr n).data :=
    List.filter_eq_self.mpr (fun c hc => by
      obtain ⟨d, hd, rfl⟩ := natStr_digit_chars h c hc
      exact digitChar_isDigit hd)
  rw [hdig]
  rw [if_neg (by
    intro he
    exact natStr_ne_nil h (List.isEmpty_iff.mp he))]
  rw [natOfDigitChars_natStr h]

theorem cellToString_natCast (n : Nat) : cellToString (Cell.num (n : ℚ)) = natStr n := by
  show (if ((n : ℚ)).den = 1 then intStr ((n : ℚ)).num
    else intStr ((n : ℚ)).num ++ "/" ++ natStr ((n : ℚ)).den) = natStr n
  rw [if_pos (Rat.den_natCast n), Rat.num_natCast]
  unfold intStr
  rw [if_neg (by exact not_lt.mpr (Int.natCast_nonneg n))]
  rw [Int.toNat_natCast]

/-- Parsing the time period of an already-integral positive year cell gives
back the year: `str(n).strip()` renders the decimal digits, which the
period parser reads back. -/
theorem parseTimePeriodCell_natCast {n : Nat} (h : 0 < n) :
    parseTimePeriodCell (Cell.num (n : ℚ)) = some n := by
  unfold parseTimePeriodCell
  rw [cellToString_natCast, pyStrip_natStr h]
  exact parseTimePeriodStr_natStr h

/-! ## The agency-report path of the pipeline -/

theorem extractYear_some_range {s : String} {y : Nat}
    (h : extractYearFromTimePeriod s = some y) : 1900 ≤ y ∧ y ≤ 2030 := by
  unfold extractYearFromTimePeriod at h
  split at h
  · split at h
    · cases h; assumption
    · exact Option.noConfusion h
  · exact Option.noConfusion h

theorem handleOecd_eq_parseOecd {df : DataFrame} (hwide : isWideFormatWithYears df = false)
    (hind : 2 ≤ oecdIndicatorCount df) : handleOecdStructure df = parseOecdFormat df := by
  unfold handleOecdStructure
  rw [if_neg (by simp [hwide]), if_pos hind]

theorem parseOecd_eq_of_recs {df : DataFrame} (hrecs : parseOecdRecs df ≠ []) :
    parseOecdFormat df = ⟨oecdColumns, (parseOecdRecs df).map oecdRecRow⟩ := by
  unfold parseOecdRecs at hrecs
  unfold parseOecdFormat parseOecdRecs
  split
  · rename_i hfind
    simp only [hfind] at hrecs
    exact absurd rfl hrecs
  · rename_i t hfind
    simp only [hfind] at hrecs
    have hne : ((List.drop (t + 2) df.rows).flatMap (rowRecords (timePeriodsOf df t))).isEmpty
        = false := by
      cases hcase : (List.drop (t + 2) df.rows).flatMap (rowRecords (timePeriodsOf df t)) with
      | nil => exact absurd hcase hrecs
      | cons a l => rfl
    show (if ((List.drop (t + 2) df.rows).flatMap (rowRecords (timePeriodsOf df t))).isEmpty = true
          then df
          else ⟨oecdColumns,
            ((List.drop (t + 2) df.rows).flatMap (rowRecords (timePeriodsOf df t))).map oecdRecRow⟩)
        = ⟨oecdColumns,
            ((List.drop (t + 2) df.rows).flatMap (rowRecords (timePeriodsOf df t))).map oecdRecRow⟩
    rw [hne]
    rfl

theorem oecdRecRow_cellAt0 (rec : OecdRec) : cellAt (oecdRecRow rec) 0 = Cell.str rec.country := rfl

theorem oecdRecRow_cellAt1 (rec : OecdRec) : cellAt (oecdRecRow rec) 1 =
    (match extractYearFromTimePeriod rec.otp with
     | some y => Cell.num (y : ℚ)
     | none => Cell.empty) := rfl

theorem oecdRecRow_cellAt2 (rec : OecdRec) : cellAt (oecdRecRow rec) 2 = Cell.num rec.emissions := rfl

theorem oecdRecRow_cellAt3 (rec : OecdRec) : cellAt (oecdRecRow rec) 3 = Cell.str rec.otp := rfl

theorem dropAllNaRows_oecd (recs : List OecdRec) :
    dropAllNaRows ⟨oecdColumns, recs.map oecdRecRow⟩ = ⟨oecdColumns, recs.map oecdRecRow⟩ := by
  unfold dropAllNaRows
  show DataFrame.mk _ _ = _
  rw [List.filter_eq_self.mpr]
  intro r hr
  obtain ⟨rec, _, rfl⟩ := List.mem_map.mp hr
  simp [oecdRecRow]

theorem dropAllNaCols_oecd {recs : List OecdRec} (hne : recs ≠ [])
    (hY : ∃ rec ∈ recs, (extractYearFromTimePeriod rec.otp).isSome = true) :
    dropAllNaCols ⟨oecdColumns, recs.map oecdRecRow⟩ = ⟨oecdColumns, recs.map oecdRecRow⟩ := by
  obtain ⟨rec0, hrec0⟩ := List.exists_mem_of_ne_nil recs hne
  obtain ⟨rec1, hrec1, hsome1⟩ := hY
  have h0 : ((recs.map oecdRecRow).any fun r => !(cellAt r 0 == Cell.empty)) = true :=
    List.any_eq_true.mpr ⟨oecdRecRow rec0, List.mem_map.mpr ⟨rec0, hrec0, rfl⟩,
      by rw [oecdRecRow_cellAt0]; rfl⟩
  have h1 : ((recs.map oecdRecRow).any fun r => !(cellAt r 1 == Cell.empty)) = true := by
    refine List.any_eq_true.mpr ⟨oecdRecRow rec1, List.mem_map.mpr ⟨rec1, hrec1, rfl⟩, ?_⟩
    rw [oecdRecRow_cellAt1]
    cases hext : extractYearFromTimePeriod rec1.otp with
    | none => rw [hext] at hsome1; exact Bool.noConfusion hsome1
    | some y => rfl
  have h2 : ((recs.map oecdRecRow).any fun r => !(cellAt r 2 == Cell.empty)) = true :=
    List.any_eq_true.mpr ⟨oecdRecRow rec0, List.mem_map.mpr ⟨rec0, hrec0, rfl⟩,
      by rw [oecdRecRow_cellAt2]; rfl⟩
  have h3 : ((recs.map oecdRecRow).any fun r => !(cellAt r 3 == Cell.empty)) = true :=
    List.any_eq_true.mpr ⟨oecdRecRow rec0, List.mem_map.mpr ⟨rec0, hrec0, rfl⟩,
      by rw [oecdRecRow_cellAt3]; rfl⟩
  unfold dropAllNaCols
  have hkeep : ((List.range (DataFrame.mk oecdColumns (recs.map oecdRecRow)).columns.length).filter
      (fun j => (recs.map oecdRecRow).any (fun r => !(cellAt r j == Cell.empty)))) = [0, 1, 2, 3] := by
    rw [show (List.range (DataFrame.mk oecdColumns (recs.map oecdRecRow)).columns.length)
      = [0, 1, 2, 3] from rfl]
    simp only [List.filter_cons, List.filter_nil, h0, h1, h2, h3, if_true]
  rw [hkeep]
  show DataFrame.mk oecdColumns
      ((recs.map oecdRecRow).map (fun r => [0, 1, 2, 3].map (fun j => cellAt r j)))
    = DataFrame.mk oecdColumns (recs.map oecdRecRow)
  refine congrArg (DataFrame.mk oecdColumns) ?_
  have hmaps : (recs.map oecdRecRow).map (fun r => [0, 1, 2, 3].map (fun j => cellAt r j))
      = (recs.map oecdRecRow).map (fun r => r) := by
    refine List.map_congr_left (fun r hr => ?_)
    obtain ⟨rec, _, rfl⟩ := List.mem_map.mp hr
    rfl
  rw [hmaps]
  exact List.map_id' _

theorem pairProp_mapColCells (Q : Cell → Cell → Prop) {d : DataFrame} {n : String}
    {f : Cell → Cell} {j : Nat} (hj : colIdx d n = some j) (h1 : j ≠ 1) (h3 : j ≠ 3)
    (h : ∀ r ∈ d.rows, Q (cellAt r 1) (cellAt r 3)) :
    ∀ r ∈ (mapColCells d n f).rows, Q (cellAt r 1) (cellAt r 3) := by
  intro r hr
  rw [mem_rows_mapColCells hj] at hr
  obtain ⟨r0, hr0, rfl⟩ := hr
  rw [cellAt_mapAt_ne f (Ne.symm h1), cellAt_mapAt_ne f (Ne.symm h3)]
  exact h r0 hr0

theorem pairProp_cleanCountryCol (Q : Cell → Cell → Prop) {d : DataFrame}
    (hcols : d.columns = oecdColumns)
    (h : ∀ r ∈ d.rows, Q (cellAt r 1) (cellAt r 3)) :
    ∀ r ∈ (cleanCountryCol d).rows, Q (cellAt r 1) (cellAt r 3) := by
  have hci : colIdx d "Country" = some 0 := by
    show idxOf d.columns "Country" = some 0
    rw [hcols]
    rfl
  unfold cleanCountryCol
  intro r hr
  have hr1 := rows_filterRowsByCol_subset _ _ _ r hr
  have hr2 := rows_filterRowsByCol_subset _ _ _ r hr1
  exact pairProp_mapColCells Q hci (by omega) (by omega) h r hr2

theorem pairProp_cleanEmissionsCol (Q : Cell → Cell → Prop) {d : DataFrame}
    (hcols : d.columns = oecdColumns)
    (h : ∀ r ∈ d.rows, Q (cellAt r 1) (cellAt r 3)) :
    ∀ r ∈ (cleanEmissionsCol d).rows, Q (cellAt r 1) (cellAt r 3) := by
  have hei : colIdx d "Emissions" = some 2 := by
    show idxOf d.columns "Emissions" = some 2
    rw [hcols]
    rfl
  unfold cleanEmissionsCol
  intro r hr
  have hr1 := rows_filterRowsByCol_subset _ _ _ r hr
  have hr2 := rows_filterRowsByCol_subset _ _ _ r hr1
  exact pairProp_mapColCells Q hei (by omega) (by omega) h r hr2

theorem pairProp_cleanYearCol {d : DataFrame} (hcols : d.columns = oecdColumns)
    (hP1 : ∀ r ∈ d.rows, ∃ lbl, cellAt r 3 = Cell.str lbl
      ∧ cellAt r 1 = (match extractYearFromTimePeriod lbl with
        | some y => Cell.num (y : ℚ)
        | none => Cell.empty)) :
    ∀ r ∈ (cleanYearCol d).rows, ∃ lbl y, cellAt r 3 = Cell.str lbl
      ∧ extractYearFromTimePeriod lbl = some y ∧ cellAt r 1 = Cell.num (y : ℚ) := by
  have hyi : colIdx d "Year" = some 1 := by
    show idxOf d.columns "Year" = some 1
    rw [hcols]
    rfl
  unfold cleanYearCol
  split
  · rename_i hint
    intro r hr
    obtain ⟨lbl, h3, h1⟩ := hP1 r hr
    have hall : isIntCell (cellAt r 1) = true := by
      unfold yearColIsInt at hint
      simp only [hyi] at hint
      exact List.all_eq_true.mp hint r hr
    cases hext : extractYearFromTimePeriod lbl with
    | none =>
      rw [hext] at h1
      rw [h1] at hall
      exact absurd hall (by decide)
    | some y =>
      rw [hext] at h1
      exact ⟨lbl, y, h3, hext, h1⟩
  · have hyi2 : colIdx (mapColCells d "Year" (fun c =>
        match parseTimePeriodCell c with
        | some n => Cell.num (n : ℚ)
        | none => Cell.empty)) "Year" = some 1 := by
      show idxOf (mapColCells d "Year" _).columns "Year" = some 1
      rw [columns_mapColCells, hcols]
      rfl
    intro r hr
    obtain ⟨hr, hne⟩ := (mem_rows_filterRowsByCol hyi2).mp hr
    obtain ⟨r0, hr0, rfl⟩ := (mem_rows_mapColCells hyi).mp hr
    obtain ⟨lbl, h3, h1⟩ := hP1 r0 hr0
    have hlen3 : 3 < r0.length :=
      lt_length_of_cellAt_ne (by rw [h3]; exact fun hc => Cell.noConfusion hc)
    have hc1 : cellAt (mapAt 1 (fun c =>
        match parseTimePeriodCell c with
        | some n => Cell.num (n : ℚ)
        | none => Cell.empty) r0) 1 = (fun c =>
        match parseTimePeriodCell c with
        | some n => Cell.num (n : ℚ)
        | none => Cell.empty) (cellAt r0 1) := cellAt_mapAt_self _ (by omega)
    have hc3 : cellAt (mapAt 1 (fun c =>
        match parseTimePeriodCell c with
        | some n => Cell.num (n : ℚ)
        | none => Cell.empty) r0) 3 = cellAt r0 3 := cellAt_mapAt_ne _ (by omega)
    cases hext : extractYearFromTimePeriod lbl with
    | none =>
      exfalso
      rw [hext] at h1
      rw [hc1, h1] at hne
      exact absurd hne (by decide)
    | some y =>
      rw [hext] at h1
      have hy0 : 0 < y := by
        have := extractYear_some_range hext
        omega
      refine ⟨lbl, y, ?_, hext, ?_⟩
      · rw [hc3]
        exact h3
      · rw [hc1, h1]
        show (match parseTimePeriodCell (Cell.num ((y : Nat) : ℚ)) with
          | some n => Cell.num (n : ℚ)
          | none => Cell.empty) = Cell.num ((y : Nat) : ℚ)
        rw [parseTimePeriodCell_natCast hy0]

theorem dropAllNaCols_oecd_noYear {recs : List OecdRec} (hne : recs ≠ [])
    (hY : ∀ rec ∈ recs, extractYearFromTimePeriod rec.otp = none) :
    (dropAllNaCols ⟨oecdColumns, recs.map oecdRecRow⟩).columns
      = ["Country", "Emissions", "Original_Time_Period"] := by
  obtain ⟨rec0, hrec0⟩ := List.exists_mem_of_ne_nil recs hne
  have h0 : ((recs.map oecdRecRow).any fun r => !(cellAt r 0 == Cell.empty)) = true :=
    List.any_eq_true.mpr ⟨oecdRecRow rec0, List.mem_map.mpr ⟨rec0, hrec0, rfl⟩,
      by rw [oecdRecRow_cellAt0]; rfl⟩
  have h1 : ((recs.map oecdRecRow).any fun r => !(cellAt r 1 == Cell.empty)) = false := by
    rw [List.any_eq_false]
    intro r hr
    obtain ⟨rec, hrec, rfl⟩ := List.mem_map.mp hr
    rw [oecdRecRow_cellAt1, hY rec hrec]
    decide
  have h2 : ((recs.map oecdRecRow).any fun r => !(cellAt r 2 == Cell.empty)) = true :=
    List.any_eq_true.mpr ⟨oecdRecRow rec0, List.mem_map.mpr ⟨rec0, hrec0, rfl⟩,
      by rw [oecdRecRow_cellAt2]; rfl⟩
  have h3 : ((recs.map oecdRecRow).any fun r => !(cellAt r 3 == Cell.empty)) = true :=
    List.any_eq_true.mpr ⟨oecdRecRow rec0, List.mem_map.mpr ⟨rec0, hrec0, rfl⟩,
      by rw [oecdRecRow_cellAt3]; rfl⟩
  unfold dropAllNaCols
  have hkeep : ((List.range (DataFrame.mk oecdColumns (recs.map oecdRecRow)).columns.length).filter
      (fun j => (recs.map oecdRecRow).any (fun r => !(cellAt r j == Cell.empty)))) = [0, 2, 3] := by
    rw [show (List.range (DataFrame.mk oecdColumns (recs.map oecdRecRow)).columns.length)
      = [0, 1, 2, 3] from rfl]
    simp only [List.filter_cons, List.filter_nil, h0, h1, h2, h3, if_true]
    rfl
  rw [hkeep]
  rfl

theorem oecd_pairing_chain {d : DataFrame} (hcols : d.columns = oecdColumns)
    (hP1 : ∀ r ∈ d.rows, ∃ lbl, cellAt r 3 = Cell.str lbl
      ∧ cellAt r 1 = (match extractYearFromTimePeriod lbl with
        | some y => Cell.num (y : ℚ)
        | none => Cell.empty)) :
    ∀ r ∈ (sortValues (dropMissingRequired
        ((fun d => if d.columns.contains "Emissions" then cleanEmissionsCol d else d)
          ((fun d => if d.columns.contains "Year" then cleanYearCol d else d)
            ((fun d => if d.columns.contains "Country" then cleanCountryCol d else d) d))))).rows,
      ∃ lbl y, cellAt r 3 = Cell.str lbl
        ∧ extractYearFromTimePeriod lbl = some y ∧ cellAt r 1 = Cell.num (y : ℚ) := by
  have hcc : (fun d : DataFrame => if d.columns.contains "Country" then cleanCountryCol d else d) d
      = cleanCountryCol d := by
    show (if d.columns.contains "Country" = true then cleanCountryCol d else d) = cleanCountryCol d
    have hc : d.columns.contains "Country" = true := by rw [hcols]; rfl
    rw [if_pos hc]
  have hcols1 : (cleanCountryCol d).columns = oecdColumns :=
    (columns_cleanCountryCol d).trans hcols
  have hP1c : ∀ r ∈ (cleanCountryCol d).rows, ∃ lbl, cellAt r 3 = Cell.str lbl
      ∧ cellAt r 1 = (match extractYearFromTimePeriod lbl with
        | some y => Cell.num (y : ℚ)
        | none => Cell.empty) :=
    pairProp_cleanCountryCol (fun c1 c3 => ∃ lbl, c3 = Cell.str lbl
      ∧ c1 = (match extractYearFromTimePeriod lbl with
        | some y => Cell.num (y : ℚ)
        | none => Cell.empty)) hcols hP1
  have hyy : (fun d : DataFrame => if d.columns.contains "Year" then cleanYearCol d else d)
      (cleanCountryCol d) = cleanYearCol (cleanCountryCol d) := by
    show (if (cleanCountryCol d).columns.contains "Year" = true
        then cleanYearCol (cleanCountryCol d) else cleanCountryCol d)
      = cleanYearCol (cleanCountryCol d)
    have hc : (cleanCountryCol d).columns.contains "Year" = true := by rw [hcols1]; rfl
    rw [if_pos hc]
  have hP2 : ∀ r ∈ (cleanYearCol (cleanCountryCol d)).rows,
      ∃ lbl y, cellAt r 3 = Cell.str lbl
        ∧ extractYearFromTimePeriod lbl = some y ∧ cellAt r 1 = Cell.num (y : ℚ) :=
    pairProp_cleanYearCol hcols1 hP1c
  have hcols2 : (cleanYearCol (cleanCountryCol d)).columns = oecdColumns :=
    (columns_cleanYearCol _).trans hcols1
  have hee : (fun d : DataFrame => if d.columns.contains "Emissions" then cleanEmissionsCol d else d)
      (cleanYearCol (cleanCountryCol d))
      = cleanEmissionsCol (cleanYearCol (cleanCountryCol d)) := by
    show (if (cleanYearCol (cleanCountryCol d)).columns.contains "Emissions" = true
        then cleanEmissionsCol (cleanYearCol (cleanCountryCol d))
        else cleanYearCol (cleanCountryCol d))
      = cleanEmissionsCol (cleanYearCol (cleanCountryCol d))
    have hc : (cleanYearCol (cleanCountryCol d)).columns.contains "Emissions" = true := by
      rw [hcols2]
      rfl
    rw [if_pos hc]
  have hP3 : ∀ r ∈ (cleanEmissionsCol (cleanYearCol (cleanCountryCol d))).rows,
      ∃ lbl y, cellAt r 3 = Cell.str lbl
        ∧ extractYearFromTimePeriod lbl = some y ∧ cellAt r 1 = Cell.num (y : ℚ) :=
    pairProp_cleanEmissionsCol (fun c1 c3 => ∃ lbl y, c3 = Cell.str lbl
      ∧ extractYearFromTimePeriod lbl = some y ∧ c1 = Cell.num (y : ℚ)) hcols2 hP2
  intro r hr
  have hr1 := mem_rows_sortValues.mp hr
  have hr2 := rows_dropMissingRequired_subset _ r hr1
  rw [hcc, hyy, hee] at hr2
  exact hP3 r hr2

theorem columns_cleanYearColFloat (df : DataFrame) :
    (cleanYearColFloat df).columns = df.columns := by
  unfold cleanYearColFloat
  by_cases h : yearColIsInt df = true
  · simp [h]
  · simp [h, columns_filterRowsByCol, columns_mapColCells]

theorem cleanDataFloat_eq_stages (df0 : DataFrame) :
    cleanDataFloat df0 =
      sortValues (dropMissingRequired
        ((fun d => if d.columns.contains "Emissions" then cleanEmissionsCol d else d)
          ((fun d => if d.columns.contains "Year" then cleanYearColFloat d else d)
            ((fun d => if d.columns.contains "Country" then cleanCountryCol d else d)
              (mappedFrame df0))))) := rfl

theorem columns_yearStageFloat (d : DataFrame) :
    ((fun d : DataFrame => if d.columns.contains "Year" then cleanYearColFloat d else d) d).columns
      = d.columns := by
  show (if d.columns.contains "Year" = true then cleanYearColFloat d else d).columns = d.columns
  split
  · exact columns_cleanYearColFloat d
  · rfl

/-- The columns of the float-dtyped cleaned frame are those fixed after the
mapping stage. -/
theorem columns_cleanDataFloat (df0 : DataFrame) :
    (cleanDataFloat df0).columns = (mappedFrame df0).columns := by
  rw [cleanDataFloat_eq_stages, columns_sortValues, columns_dropMissingRequired,
    columns_emissionsStage, columns_yearStageFloat, columns_countryStage]

/-- A successful float-dtyped pipeline run returns the cleaned frame and had
a successful validation. -/
theorem loadAndCleanDataFloat_ok {df out : DataFrame}
    (hok : loadAndCleanDataFloat df = Except.ok out) :
    out = cleanDataFloat (handleOecdStructure df)
    ∧ validateData (cleanDataFloat (handleOecdStructure df)) = Except.ok () := by
  unfold loadAndCleanDataFloat at hok
  cases hv : validateData (cleanDataFloat (handleOecdStructure df)) with
  | ok u =>
    rw [hv] at hok
    have h2 : cleanDataFloat (handleOecdStructure df) = out := by
      simpa [Except.map] using hok
    exact ⟨h2.symm, by cases u; rfl⟩
  | error e =>
    rw [hv] at hok
    simp [Except.map] at hok

theorem oecd_pairing_chain_float {d : DataFrame} (hcols : d.columns = oecdColumns)
    (hP2 : ∀ r ∈ d.rows, ∃ lbl y, cellAt r 3 = Cell.str lbl
      ∧ extractYearFromTimePeriod lbl = some y ∧ cellAt r 1 = Cell.num (y : ℚ)) :
    ∀ r ∈ (sortValues (dropMissingRequired
        ((fun d => if d.columns.contains "Emissions" then cleanEmissionsCol d else d)
          ((fun d => if d.columns.contains "Year" then cleanYearColFloat d else d)
            ((fun d => if d.columns.contains "Country" then cleanCountryCol d else d) d))))).rows,
      ∃ lbl y, cellAt r 3 = Cell.str lbl
        ∧ extractYearFromTimePeriod lbl = some y ∧ cellAt r 1 = Cell.num (y : ℚ) := by
  have hcc : (fun d : DataFrame => if d.columns.contains "Country" then cleanCountryCol d else d) d
      = cleanCountryCol d := by
    show (if d.columns.contains "Country" = true then cleanCountryCol d else d) = cleanCountryCol d
    have hc : d.columns.contains "Country" = true := by rw [hcols]; rfl
    rw [if_pos hc]
  have hcols1 : (cleanCountryCol d).columns = oecdColumns :=
    (columns_cleanCountryCol d).trans hcols
  have hP2c : ∀ r ∈ (cleanCountryCol d).rows, ∃ lbl y, cellAt r 3 = Cell.str lbl
      ∧ extractYearFromTimePeriod lbl = some y ∧ cellAt r 1 = Cell.num (y : ℚ) :=
    pairProp_cleanCountryCol (fun c1 c3 => ∃ lbl y, c3 = Cell.str lbl
      ∧ extractYearFromTimePeriod lbl = some y ∧ c1 = Cell.num (y : ℚ)) hcols hP2
  have hyi1 : colIdx (cleanCountryCol d) "Year" = some 1 := by
    show idxOf (cleanCountryCol d).columns "Year" = some 1
    rw [hcols1]
    rfl
  have hint : yearColIsInt (cleanCountryCol d) = true := by
    unfold yearColIsInt
    simp only [hyi1]
    refine List.all_eq_true.mpr (fun r hr => ?_)
    obtain ⟨lbl, y, h3, hext, h1⟩ := hP2c r hr
    rw [h1]
    show ((y : ℚ).den == 1) = true
    rw [Rat.den_natCast]
    rfl
  have hyyF : (fun d : DataFrame => if d.columns.contains "Year" then cleanYearColFloat d else d)
      (cleanCountryCol d) = cleanCountryCol d := by
    show (if (cleanCountryCol d).columns.contains "Year" = true
        then cleanYearColFloat (cleanCountryCol d) else cleanCountryCol d) = cleanCountryCol d
    have hc : (cleanCountryCol d).columns.contains "Year" = true := by rw [hcols1]; rfl
    rw [if_pos hc]
    unfold cleanYearColFloat
    rw [if_pos hint]
  have heeF : (fun d : DataFrame => if d.columns.contains "Emissions" then cleanEmissionsCol d else d)
      (cleanCountryCol d) = cleanEmissionsCol (cleanCountryCol d) := by
    show (if (cleanCountryCol d).columns.contains "Emissions" = true
        then cleanEmissionsCol (cleanCountryCol d) else cleanCountryCol d)
      = cleanEmissionsCol (cleanCountryCol d)
    have hc : (cleanCountryCol d).columns.contains "Emissions" = true := by rw [hcols1]; rfl
    rw [if_pos hc]
  have hP3 : ∀ r ∈ (cleanEmissionsCol (cleanCountryCol d)).rows,
      ∃ lbl y, cellAt r 3 = Cell.str lbl
        ∧ extractYearFromTimePeriod lbl = some y ∧ cellAt r 1 = Cell.num (y : ℚ) :=
    pairProp_cleanEmissionsCol (fun c1 c3 => ∃ lbl y, c3 = Cell.str lbl
      ∧ extractYearFromTimePeriod lbl = some y ∧ c1 = Cell.num (y : ℚ)) hcols1 hP2c
  intro r hr
  have hr1 := mem_rows_sortValues.mp hr
  have hr2 := rows_dropMissingRequired_subset _ r hr1
  rw [hcc, hyyF, heeF] at hr2
  exact hP3 r hr2

/-- C7 (amended): on every agency-report input (not wide-format, at least
two indicator rows, at least one parsed record) all of whose records carry
an extractable period label — so the parsed Year column is integer-dtyped
and the float64 re-parse that mangles mixed columns (see the counterexample)
cannot fire — when the pipeline succeeds the output keeps the source period
label in column `Original_Time_Period` (position 3) and, in column `Year`
(position 1), every record carries exactly the integer given by the first
4-digit substring of its own label, which lies in `[1900, 2030]`; records
whose label admits no such year are absent. -/
theorem claim_C7_agency_year {df out : DataFrame}
    (hwide : isWideFormatWithYears df = false)
    (hind : 2 ≤ oecdIndicatorCount df)
    (hrecs : parseOecdRecs df ≠ [])
    (hallext : ∀ rec ∈ parseOecdRecs df, (extractYearFromTimePeriod rec.otp).isSome = true)
    (hok : loadAndCleanDataFloat df = Except.ok out) :
    colIdx out "Year" = some 1 ∧ colIdx out "Original_Time_Period" = some 3 ∧
    ∀ r ∈ out.rows, ∃ lbl y, cellAt r 3 = Cell.str lbl
      ∧ extractYearFromTimePeriod lbl = some y
      ∧ 1900 ≤ y ∧ y ≤ 2030
      ∧ cellAt r 1 = Cell.num (y : ℚ) := by
  obtain ⟨hout, hv⟩ := loadAndCleanDataFloat_ok hok
  have hhandle : handleOecdStructure df
      = ⟨oecdColumns, (parseOecdRecs df).map oecdRecRow⟩ :=
    (handleOecd_eq_parseOecd hwide hind).trans (parseOecd_eq_of_recs hrecs)
  have hY : ∃ rec ∈ parseOecdRecs df, (extractYearFromTimePeriod rec.otp).isSome = true := by
    obtain ⟨rec0, hrec0⟩ := List.exists_mem_of_ne_nil _ hrecs
    exact ⟨rec0, hrec0, hallext rec0 hrec0⟩
  have h2 : dropAllNaCols (dropAllNaRows ⟨oecdColumns, (parseOecdRecs df).map oecdRecRow⟩)
      = ⟨oecdColumns, (parseOecdRecs df).map oecdRecRow⟩ := by
    rw [dropAllNaRows_oecd]
    exact dropAllNaCols_oecd hrecs hY
  have hmf : mappedFrame ⟨oecdColumns, (parseOecdRecs df).map oecdRecRow⟩
      = ⟨oecdColumns, (parseOecdRecs df).map oecdRecRow⟩ := by
    have hcond : requiredColumns.all (fun c =>
        (dropAllNaCols (dropAllNaRows
          ⟨oecdColumns, (parseOecdRecs df).map oecdRecRow⟩)).columns.contains c) = true := by
      rw [h2]
      rfl
    show (if requiredColumns.all (fun c =>
          (dropAllNaCols (dropAllNaRows
            ⟨oecdColumns, (parseOecdRecs df).map oecdRecRow⟩)).columns.contains c) = true
        then dropAllNaCols (dropAllNaRows ⟨oecdColumns, (parseOecdRecs df).map oecdRecRow⟩)
        else mapColumns (dropAllNaCols (dropAllNaRows
          ⟨oecdColumns, (parseOecdRecs df).map oecdRecRow⟩)))
      = ⟨oecdColumns, (parseOecdRecs df).map oecdRecRow⟩
    rw [if_pos hcond, h2]
  have hmfh : mappedFrame (handleOecdStructure df)
      = ⟨oecdColumns, (parseOecdRecs df).map oecdRecRow⟩ :=
    (congrArg mappedFrame hhandle).trans hmf
  have hcolsM : (mappedFrame (handleOecdStructure df)).columns = oecdColumns :=
    congrArg DataFrame.columns hmfh
  have hP2M : ∀ r ∈ (mappedFrame (handleOecdStructure df)).rows,
      ∃ lbl y, cellAt r 3 = Cell.str lbl
        ∧ extractYearFromTimePeriod lbl = some y ∧ cellAt r 1 = Cell.num (y : ℚ) := by
    rw [hmfh]
    intro r hr
    obtain ⟨rec, hrec, rfl⟩ := List.mem_map.mp hr
    obtain ⟨y, hext⟩ := Option.isSome_iff_exists.mp (hallext rec hrec)
    refine ⟨rec.otp, y, rfl, hext, ?_⟩
    show (match extractYearFromTimePeriod rec.otp with
      | some z => Cell.num ((z : Nat) : ℚ)
      | none => Cell.empty) = Cell.num ((y : Nat) : ℚ)
    rw [hext]
  have hchain := oecd_pairing_chain_float hcolsM hP2M
  have hrows : out.rows = (sortValues (dropMissingRequired
      ((fun d => if d.columns.contains "Emissions" then cleanEmissionsCol d else d)
        ((fun d => if d.columns.contains "Year" then cleanYearColFloat d else d)
          ((fun d => if d.columns.contains "Country" then cleanCountryCol d else d)
            (mappedFrame (handleOecdStructure df))))))).rows :=
    congrArg DataFrame.rows (hout.trans (cleanDataFloat_eq_stages _))
  have hcolsOut : out.columns = oecdColumns :=
    (congrArg DataFrame.columns hout).trans ((columns_cleanDataFloat _).trans hcolsM)
  refine ⟨?_, ?_, ?_⟩
  · show idxOf out.columns "Year" = some 1
    rw [hcolsOut]
    rfl
  · show idxOf out.columns "Original_Time_Period" = some 3
    rw [hcolsOut]
    rfl
  · intro r hr
    obtain ⟨lbl, y, h3, hext, h1⟩ := hchain r (hrows ▸ hr)
    obtain ⟨hlo, hhi⟩ := extractYear_some_range hext
    exact ⟨lbl, y, h3, hext, hlo, hhi, h1⟩

/-- C7 witness: the sample agency report, all of whose period labels are
extractable, instantiates the hypotheses and the conclusion at concrete
data. -/
theorem claim_C7_agency_year_witness :
    colIdx sampleAgencyOut "Year" = some 1
    ∧ colIdx sampleAgencyOut "Original_Time_Period" = some 3
    ∧ ∀ r ∈ sampleAgencyOut.rows, ∃ lbl y, cellAt r 3 = Cell.str lbl
      ∧ extractYearFromTimePeriod lbl = some y
      ∧ 1900 ≤ y ∧ y ≤ 2030
      ∧ cellAt r 1 = Cell.num (y : ℚ) :=
  @claim_C7_agency_year sampleAgency sampleAgencyOut
    (by with_unfolding_all decide)
    (by with_unfolding_all decide)
    (by with_unfolding_all decide)
    (by with_unfolding_all decide)
    (by with_unfolding_all decide)

/-- C7 counterexample to the unamended claim: `sampleMixedAgency` is an
agency report whose periods mix extractable labels with `"Total"`, so the
parsed Year column holds a missing value and pandas types it float64; the
re-parse then digit-strips `str(2019.0) = "2019.0"` to `20190`, and the
pipeline succeeds (the validator only warns on out-of-range years) with
every output year `20190` — not the extracted year `2019` of the record's
own label. -/
theorem claim_C7_agency_year_counterexample :
    isWideFormatWithYears sampleMixedAgency = false
    ∧ 2 ≤ oecdIndicatorCount sampleMixedAgency
    ∧ parseOecdRecs sampleMixedAgency ≠ []
    ∧ loadAndCleanDataFloat sampleMixedAgency = Except.ok sampleMixedAgencyOut
    ∧ colIdx sampleMixedAgencyOut "Year" = some 1
    ∧ colIdx sampleMixedAgencyOut "Original_Time_Period" = some 3
    ∧ (∃ r ∈ sampleMixedAgencyOut.rows, cellAt r 3 = Cell.str "2019-Jan"
        ∧ extractYearFromTimePeriod "2019-Jan" = some 2019
        ∧ cellAt r 1 = Cell.num 20190)
    ∧ Cell.num 20190 ≠ Cell.num 2019 :=
  ⟨by with_unfolding_all decide,
   by with_unfolding_all decide,
   by with_unfolding_all decide,
   by with_unfolding_all rfl,
   by decide,
   by decide,
   ⟨[Cell.str "Norway", Cell.num 20190, Cell.num 1, Cell.str "2019-Jan"],
    List.Mem.head _,
    rfl,
    by decide,
    rfl⟩,
   by with_unfolding_all decide⟩

end CarbonOcean
